import Mathlib

/-!
Shallow embedding of the banking payment workflows
(`src/activities/banking-activities.ts`, `src/workflows/modern-payment-v1.ts`,
`src/workflows/modern-payment-v2.ts`, and the routing logic of the Express
boundary in `index.ts`).

Modelling conventions:
* TypeScript `number` amounts and balances are modelled as `Int`
  (all operations performed on them are `+`, `-` and comparisons).
* Each remote activity is a pure function of an `Env` record that fixes the
  backend state (accounts, fraud flags) and the outcome of each network call
  (a `some msg` failure field means the corresponding axios call rejects with
  the given message, which the activity catches and rethrows wrapped, exactly
  as the `try/catch` blocks in `banking-activities.ts` do).
* A thrown JavaScript exception is an `Except.error` carrying the message.
* Wall-clock time (`Date.now()`) is abstracted: one constant `env.now` is used
  for workflow-id and transaction-id interpolation and every duration is 0.
* The workflow bodies thread a state `St` recording every audit emission and
  every successful payment-status update, so that the observable side effects
  of a run can be reasoned about.
-/

/-- Mirrors the `Account` interface of `banking-activities.ts`. -/
structure Account where
  id : String
  accountNumber : String
  customerId : String
  balance : Int
  currency : String
  status : String
  accountType : String
  createdAt : String
deriving Repr, DecidableEq

/-- Mirrors the `FraudFlag` interface of `banking-activities.ts`. -/
structure FraudFlag where
  id : String
  accountId : String
  customerId : String
  riskScore : Int
  isBlocked : Bool
  riskLevel : String
  reason : String
  flaggedAt : String
deriving Repr, DecidableEq

/-- Result shape of the `validateAccount` activity. -/
structure ValidationOutcome where
  isValid : Bool
  account : Option Account
  reason : String
deriving Repr, DecidableEq

/-- Result shape of the `performFraudCheck` activity. -/
structure FraudOutcome where
  isBlocked : Bool
  riskScore : Int
  reason : String
deriving Repr, DecidableEq

/-- Result shape of the `debitAccount` / `creditAccount` activities. -/
structure LedgerOutcome where
  success : Bool
  newBalance : Int
  transactionId : String
deriving Repr, DecidableEq

/-- The `fraudCheckResult` object tracked by the second definition of
`modernPaymentV2Workflow` (lines 366-671 of `modern-payment-v2.ts`). -/
structure FraudSummary where
  performed : Bool
  riskScore : Int
  action : String
deriving Repr, DecidableEq

/-- The `executionSummary` of a `PaymentResult`.  The first v2 definition and
the v1 definition have no `fraudCheckResult` field; they are modelled with
`fraudCheckResult = none` (the field is optional in the TypeScript type of the
second v2 definition). -/
structure ExecutionSummary where
  totalTime : Nat
  stepsExecuted : List String
  version : String
  architecture : String
  fraudCheckResult : Option FraudSummary
deriving Repr, DecidableEq

/-- Mirrors the `PaymentResult` interface of the workflow files.  `paymentId`
and `error` are optional fields. -/
structure PaymentResult where
  success : Bool
  paymentId : Option String
  error : Option String
  executionSummary : ExecutionSummary
deriving Repr, DecidableEq

/-- Mirrors the `PaymentInput` interface of the workflow files. -/
structure PaymentInput where
  fromAccount : String
  toAccount : String
  amount : Int
  currency : String
  description : String
deriving Repr, DecidableEq

/-- Observable side effect of a run: an audit emission (a `logAuditEvent`
call) or a successful payment-status update (the PUT performed by
`updatePaymentStatus`). -/
inductive Effect where
  | audit (workflowId workflowVersion step status : String)
      (executionTime : Nat) (details : String)
  | statusUpdate (paymentId status : String) (details : Option String)
deriving Repr, DecidableEq

/-- Mutable run state: number of audit calls made so far and the list of
observable effects in emission order. -/
structure St where
  auditCount : Nat
  effects : List Effect
deriving Repr, DecidableEq

/-- Backend state and network-call outcomes for one run.  A field of type
`Option String` is `some msg` when the corresponding axios call fails with
message `msg`, and `none` when it succeeds.  `auditOk n` tells whether the
`n`-th audit POST is accepted by the audit sink. -/
structure Env where
  accounts : List Account
  fraudFlags : List FraudFlag
  validateGetFail : Option String
  fraudGetFail : Option String
  createFail : Option String
  createdPaymentId : String
  debitGetFail : Option String
  debitPutFail : Option String
  creditGetFail : Option String
  creditPutFail : Option String
  updateFail : Option String
  auditOk : Nat → Bool
  now : Nat

/-- Reason string of the account-not-found branch of `validateAccount`
(line 73 of `banking-activities.ts`). -/
def notFoundReason (accountNumber : String) : String :=
  "Account " ++ accountNumber ++ " not found"

/-- Reason string of the inactive-status branch of `validateAccount`
(line 81 of `banking-activities.ts`). -/
def inactiveReason (accountNumber status : String) : String :=
  "Account " ++ accountNumber ++ " is " ++ status

/-- Reason string of the insufficient-balance branch of `validateAccount`
(line 89 of `banking-activities.ts`). -/
def insufficientFundsReason (balance required : Int) : String :=
  "Insufficient funds. Balance: " ++ toString balance ++
    ", Required: " ++ toString required

/-- `validateAccount` (lines 55-102 of `banking-activities.ts`).  Performs a
GET of all accounts (failure is caught and rethrown wrapped), finds the
account by `accountNumber`, and returns the four-way verdict. -/
def validateAccount (env : Env) (accountNumber : String) (requiredAmount : Int) :
    Except String ValidationOutcome :=
  match env.validateGetFail with
  | some e => .error ("Account validation failed: " ++ e)
  | none =>
    match env.accounts.find? (fun acc => acc.accountNumber == accountNumber) with
    | none => .ok ⟨false, none, notFoundReason accountNumber⟩
    | some account =>
      if account.status != "ACTIVE" then
        .ok ⟨false, some account, inactiveReason accountNumber account.status⟩
      else if account.balance < requiredAmount then
        .ok ⟨false, some account,
          insufficientFundsReason account.balance requiredAmount⟩
      else
        .ok ⟨true, some account, "Account validation successful"⟩

/-- `performFraudCheck` (lines 105-152 of `banking-activities.ts`). -/
def performFraudCheck (env : Env) (accountNumber : String) (amount : Int) :
    Except String FraudOutcome :=
  match env.fraudGetFail with
  | some e => .error ("Fraud check failed: " ++ e)
  | none =>
    match env.fraudFlags.find? (fun flag => flag.accountId == accountNumber) with
    | none => .ok ⟨false, 10, "No fraud history - low risk"⟩
    | some accountFlag =>
      let adjustedRiskScore :=
        accountFlag.riskScore + (if amount > 10000 then 20 else 0)
      let isBlocked := accountFlag.isBlocked || adjustedRiskScore > 80
      .ok ⟨isBlocked, adjustedRiskScore,
        if isBlocked then "High risk detected: " ++ accountFlag.reason
        else "Risk assessment passed - Score: " ++ toString adjustedRiskScore⟩

/-- The PUT of a new balance performed by `debitAccount` / `creditAccount`:
the mock backend replaces the record with the matching `id`. -/
def putAccountBalance (accounts : List Account) (accId : String)
    (newBalance : Int) : List Account :=
  accounts.map (fun a => if a.id == accId then { a with balance := newBalance } else a)

/-- `debitAccount` (lines 155-195 of `banking-activities.ts`).  Takes the
ledger state `accounts` visible to its GET; on success returns the activity
result together with the ledger state after its PUT.  The internal `throw new
Error(...)` values are re-wrapped by the surrounding catch as
`Account debit failed: Error: ...`, matching the template-literal rendering of
an `Error` object. -/
def debitAccount (env : Env) (accounts : List Account) (accountNumber : String)
    (amount : Int) : Except String (LedgerOutcome × List Account) :=
  match env.debitGetFail with
  | some e => .error ("Account debit failed: " ++ e)
  | none =>
    match accounts.find? (fun acc => acc.accountNumber == accountNumber) with
    | none =>
      .error ("Account debit failed: Error: Account " ++ accountNumber ++
        " not found for debit")
    | some account =>
      if account.id == "" then
        .error ("Account debit failed: Error: Account " ++ accountNumber ++
          " missing ID field - cannot update")
      else
        let newBalance := account.balance - amount
        match env.debitPutFail with
        | some e => .error ("Account debit failed: " ++ e)
        | none =>
          .ok (⟨true, newBalance, "TXN_" ++ toString env.now⟩,
            putAccountBalance accounts account.id newBalance)

/-- `creditAccount` (lines 198-238 of `banking-activities.ts`). -/
def creditAccount (env : Env) (accounts : List Account) (accountNumber : String)
    (amount : Int) : Except String (LedgerOutcome × List Account) :=
  match env.creditGetFail with
  | some e => .error ("Account credit failed: " ++ e)
  | none =>
    match accounts.find? (fun acc => acc.accountNumber == accountNumber) with
    | none =>
      .error ("Account credit failed: Error: Account " ++ accountNumber ++
        " not found for credit")
    | some account =>
      if account.id == "" then
        .error ("Account credit failed: Error: Account " ++ accountNumber ++
          " missing ID field - cannot update")
      else
        let newBalance := account.balance + amount
        match env.creditPutFail with
        | some e => .error ("Account credit failed: " ++ e)
        | none =>
          .ok (⟨true, newBalance, "TXN_" ++ toString env.now⟩,
            putAccountBalance accounts account.id newBalance)

/-- `createPaymentRequest` (lines 288-322 of `banking-activities.ts`).  The
backend assigns the payment id (`env.createdPaymentId`); the POST body fields
do not influence the assigned id. -/
def createPaymentRequest (env : Env) (fromAccount toAccount : String)
    (amount : Int) (currency workflowId description : String) :
    Except String String :=
  match env.createFail with
  | some _ => .error ("Payment request creation failed: " ++
      env.createFail.getD "")
  | none =>
    let _body := (fromAccount, toAccount, amount, currency, "PENDING",
      workflowId, description)
    .ok env.createdPaymentId

/-- `updatePaymentStatus` (lines 325-349 of `banking-activities.ts`).  On
network failure (GET of the payment or PUT of the new status) it throws a
wrapped error; on success the status update becomes observable. -/
def updatePaymentStatus (env : Env) (st : St) (paymentId status : String)
    (details : Option String) : St × Except String Unit :=
  match env.updateFail with
  | some e => (st, .error ("Payment status update failed: " ++ e))
  | none =>
    (⟨st.auditCount, st.effects ++ [.statusUpdate paymentId status details]⟩,
      .ok ())

/-- Appends one audit emission to the run state. -/
def pushAudit (st : St) (workflowId version stepName status : String)
    (duration : Nat) (details : String) : St :=
  ⟨st.auditCount + 1,
    st.effects ++ [.audit workflowId version stepName status duration details]⟩

/-- `logAuditEvent` (lines 242-286 of `banking-activities.ts`).  The POST to
the audit sink may fail, but the catch swallows the error and returns the
sentinel `AUDIT_FAILED` instead of throwing: the activity never throws, and
its returned audit id is discarded by every caller. -/
def logAuditEvent (env : Env) (st : St) (workflowId version stepName status : String)
    (duration : Nat) (details : String) : St × String :=
  (pushAudit st workflowId version stepName status duration details,
    if env.auditOk st.auditCount then "AUDIT_" ++ toString st.auditCount
    else "AUDIT_FAILED")

/-- Models the non-null assertion `validation.account!.balance` used in the
audit details on the valid path (where the account is always present). -/
def optBalance (o : Option Account) : Int :=
  match o with
  | some a => a.balance
  | none => 0

/-- Field-presence check of `POST /api/payments/start` (`index.ts`): the
request is rejected when `fromAccount`, `toAccount` or `amount` is falsy. -/
def startPaymentAccepted (fromAccount toAccount : String) (amount : Int) : Bool :=
  !(fromAccount == "" || toAccount == "" || amount == 0)

/-- The deterministic routing of `POST /api/payments/start`:
`amount >= 1000` selects v2, otherwise v1. -/
def routePayment (amount : Int) : String :=
  if amount ≥ 1000 then "v2" else "v1"

/-- The workflow id built by the boundary,
`modern-${workflowVersion}-${Date.now()}${rand}`; the numeric tail is
abstracted as `suffix`. -/
def boundaryWorkflowId (amount : Int) (suffix : String) : String :=
  "modern-" ++ routePayment amount ++ "-" ++ suffix

/-- Summary shape produced everywhere inside `modernPaymentV1Workflow`. -/
def v1Summary (steps : List String) : ExecutionSummary :=
  ⟨0, steps, "Modern v1", "Temporal Orchestrated", none⟩

/-- Top-level `catch` of `modernPaymentV1Workflow` (lines 189-212 of
`modern-payment-v1.ts`): logs a `PAYMENT_FAILED` audit event and returns a
failure result that carries no `paymentId`. -/
def v1Catch (env : Env) (st : St) (workflowId : String) (steps : List String)
    (errorMessage : String) : PaymentResult × List Effect :=
  let st2 := (logAuditEvent env st workflowId "v1" "PAYMENT_FAILED" "FAILED" 0
    ("Payment workflow failed: " ++ errorMessage ++
      " | Temporal provides detailed error context")).1
  ({ success := false, paymentId := none, error := some errorMessage,
     executionSummary := v1Summary steps }, st2.effects)

/-- Step 5 of `modernPaymentV1Workflow` (lines 165-187): mark the payment
COMPLETED and return the success result. -/
def v1RunComplete (env : Env) (workflowId : String) (st : St)
    (steps : List String) (paymentId : String) : PaymentResult × List Effect :=
  let u := updatePaymentStatus env st paymentId "COMPLETED"
    (some "Payment processed successfully via Temporal orchestration")
  match u.2 with
  | .error e => v1Catch env u.1 workflowId steps e
  | .ok _ =>
    let st2 := (logAuditEvent env u.1 workflowId "v1" "PAYMENT_COMPLETED"
      "SUCCESS" 0
      "Payment completed successfully | Benefits: Automatic retries, step-level observability, fault tolerance | Duration: 0ms").1
    ({ success := true, paymentId := some paymentId, error := none,
       executionSummary := v1Summary steps }, st2.effects)

/-- Step 4 of `modernPaymentV1Workflow` (lines 133-163): credit the
destination account.  `accounts` is the ledger state after the debit.  The
`!creditResult.success` branch interpolates the nonexistent
`creditResult.error` field, which renders as `undefined`. -/
def v1RunCredit (env : Env) (input : PaymentInput) (workflowId : String)
    (st : St) (steps : List String) (paymentId : String)
    (accounts : List Account) : PaymentResult × List Effect :=
  let steps2 := steps ++ ["CREDIT_ACCOUNT"]
  let st1 := (logAuditEvent env st workflowId "v1" "CREDIT_ACCOUNT" "PENDING" 0
    ("Crediting " ++ toString input.amount ++ " to " ++ input.toAccount)).1
  match creditAccount env accounts input.toAccount input.amount with
  | .error e => v1Catch env st1 workflowId steps2 e
  | .ok cr =>
    if !cr.1.success then
      let st2 := (logAuditEvent env st1 workflowId "v1" "CREDIT_ACCOUNT"
        "FAILED" 0
        "Credit failed: undefined | Temporal enables SAGA compensation patterns").1
      let u := updatePaymentStatus env st2 paymentId "FAILED"
        (some "Credit failed - compensation required")
      match u.2 with
      | .error e => v1Catch env u.1 workflowId steps2 e
      | .ok _ =>
        ({ success := false, paymentId := some paymentId,
           error := some "Account credit failed",
           executionSummary := v1Summary steps2 }, u.1.effects)
    else
      let st2 := (logAuditEvent env st1 workflowId "v1" "CREDIT_ACCOUNT"
        "SUCCESS" 0
        ("Account credited | New balance: " ++ toString cr.1.newBalance ++
          " | Transaction: " ++ cr.1.transactionId)).1
      v1RunComplete env workflowId st2 steps2 paymentId

/-- Step 3 of `modernPaymentV1Workflow` (lines 103-131): debit the source
account. -/
def v1RunDebit (env : Env) (input : PaymentInput) (workflowId : String)
    (st : St) (steps : List String) (paymentId : String) :
    PaymentResult × List Effect :=
  let steps2 := steps ++ ["DEBIT_ACCOUNT"]
  let st1 := (logAuditEvent env st workflowId "v1" "DEBIT_ACCOUNT" "PENDING" 0
    ("Debiting " ++ toString input.amount ++ " from " ++ input.fromAccount)).1
  match debitAccount env env.accounts input.fromAccount input.amount with
  | .error e => v1Catch env st1 workflowId steps2 e
  | .ok dr =>
    if !dr.1.success then
      let st2 := (logAuditEvent env st1 workflowId "v1" "DEBIT_ACCOUNT"
        "FAILED" 0
        "Debit failed: undefined | Temporal can implement compensation logic").1
      let u := updatePaymentStatus env st2 paymentId "FAILED"
        (some "Debit failed")
      match u.2 with
      | .error e => v1Catch env u.1 workflowId steps2 e
      | .ok _ =>
        ({ success := false, paymentId := some paymentId,
           error := some "Account debit failed",
           executionSummary := v1Summary steps2 }, u.1.effects)
    else
      let st2 := (logAuditEvent env st1 workflowId "v1" "DEBIT_ACCOUNT"
        "SUCCESS" 0
        ("Account debited | New balance: " ++ toString dr.1.newBalance ++
          " | Transaction: " ++ dr.1.transactionId)).1
      v1RunCredit env input workflowId st2 steps2 paymentId dr.2

/-- Step 2 of `modernPaymentV1Workflow` (lines 73-101): validate the source
account; on an invalid verdict mark the payment FAILED and return the
validation reason verbatim. -/
def v1RunValidate (env : Env) (input : PaymentInput) (workflowId : String)
    (st : St) (steps : List String) (paymentId : String) :
    PaymentResult × List Effect :=
  let steps2 := steps ++ ["VALIDATE_ACCOUNT"]
  let st1 := (logAuditEvent env st workflowId "v1" "VALIDATE_ACCOUNT" "PENDING" 0
    ("Validating account " ++ input.fromAccount ++ " balance and status")).1
  match validateAccount env input.fromAccount input.amount with
  | .error e => v1Catch env st1 workflowId steps2 e
  | .ok validation =>
    if !validation.isValid then
      let st2 := (logAuditEvent env st1 workflowId "v1" "VALIDATE_ACCOUNT"
        "FAILED" 0
        ("Validation failed: " ++ validation.reason ++
          " | Temporal automatically handles failure")).1
      let u := updatePaymentStatus env st2 paymentId "FAILED"
        (some validation.reason)
      match u.2 with
      | .error e => v1Catch env u.1 workflowId steps2 e
      | .ok _ =>
        ({ success := false, paymentId := some paymentId,
           error := some validation.reason,
           executionSummary := v1Summary steps2 }, u.1.effects)
    else
      let st2 := (logAuditEvent env st1 workflowId "v1" "VALIDATE_ACCOUNT"
        "SUCCESS" 0
        ("Account validated | Balance: " ++
          toString (optBalance validation.account) ++
          " | Temporal provides step-level observability")).1
      v1RunDebit env input workflowId st2 steps2 paymentId

/-- `modernPaymentV1Workflow` (lines 44-213 of `modern-payment-v1.ts`),
returning the `PaymentResult` and the run effects. -/
def modernPaymentV1Workflow (env : Env) (input : PaymentInput) :
    PaymentResult × List Effect :=
  let workflowId := "modern-v1-" ++ toString env.now
  let st0 : St := ⟨0, []⟩
  let steps1 : List String := ["CREATE_PAYMENT_REQUEST"]
  let st1 := (logAuditEvent env st0 workflowId "v1" "CREATE_PAYMENT_REQUEST"
    "PENDING" 0
    ("Starting payment: " ++ input.fromAccount ++ " → " ++ input.toAccount ++
      " | Amount: " ++ toString input.amount ++ " " ++ input.currency)).1
  match createPaymentRequest env input.fromAccount input.toAccount input.amount
      input.currency workflowId (input.description ++ " (Orchestrated v1)") with
  | .error e => v1Catch env st1 workflowId steps1 e
  | .ok paymentId =>
    let st2 := (logAuditEvent env st1 workflowId "v1" "CREATE_PAYMENT_REQUEST"
      "SUCCESS" 0
      ("Payment request created: " ++ paymentId ++
        " | Temporal ensures durable execution")).1
    v1RunValidate env input workflowId st2 steps1 paymentId

/-- Summary shape of the first `modernPaymentV2Workflow` definition
(lines 45-315 of `modern-payment-v2.ts`). -/
def v2Summary (steps : List String) : ExecutionSummary :=
  ⟨0, steps, "Modern v2", "Temporal Orchestrated + Fraud Check", none⟩

/-- Top-level `catch` of the first v2 definition (lines 292-314). -/
def v2Catch (env : Env) (st : St) (workflowId : String) (steps : List String)
    (errorMessage : String) : PaymentResult × List Effect :=
  let st2 := (logAuditEvent env st workflowId "v2" "PAYMENT_FAILED" "FAILED" 0
    ("v2 Payment workflow failed: " ++ errorMessage)).1
  ({ success := false, paymentId := none, error := some errorMessage,
     executionSummary := v2Summary steps }, st2.effects)

/-- Step 6 of the first v2 definition (lines 265-291). -/
def v2RunComplete (env : Env) (workflowId : String) (st : St)
    (steps : List String) (paymentId : String) : PaymentResult × List Effect :=
  let u := updatePaymentStatus env st paymentId "COMPLETED"
    (some "v2 payment completed with fraud protection")
  match u.2 with
  | .error e => v2Catch env u.1 workflowId steps e
  | .ok _ =>
    let st2 := (logAuditEvent env u.1 workflowId "v2" "PAYMENT_COMPLETED"
      "SUCCESS" 0
      "🎉 v2 Payment completed with fraud protection | Duration: 0ms").1
    ({ success := true, paymentId := some paymentId, error := none,
       executionSummary := v2Summary steps }, st2.effects)

/-- Step 5 of the first v2 definition (lines 221-263). -/
def v2RunCredit (env : Env) (input : PaymentInput) (workflowId : String)
    (st : St) (steps : List String) (paymentId : String)
    (accounts : List Account) : PaymentResult × List Effect :=
  let steps2 := steps ++ ["CREDIT_ACCOUNT"]
  let st1 := (logAuditEvent env st workflowId "v2" "CREDIT_ACCOUNT" "PENDING" 0
    ("Crediting " ++ toString input.amount ++ " (secure transfer)")).1
  match creditAccount env accounts input.toAccount input.amount with
  | .error e => v2Catch env st1 workflowId steps2 e
  | .ok cr =>
    if !cr.1.success then
      let st2 := (logAuditEvent env st1 workflowId "v2" "CREDIT_ACCOUNT"
        "FAILED" 0 "Credit failed: undefined").1
      let u := updatePaymentStatus env st2 paymentId "FAILED"
        (some "Credit failed")
      match u.2 with
      | .error e => v2Catch env u.1 workflowId steps2 e
      | .ok _ =>
        ({ success := false, paymentId := some paymentId,
           error := some "Account credit failed",
           executionSummary := v2Summary steps2 }, u.1.effects)
    else
      let st2 := (logAuditEvent env st1 workflowId "v2" "CREDIT_ACCOUNT"
        "SUCCESS" 0
        ("Account credited | New balance: " ++ toString cr.1.newBalance ++
          " | Fraud-secured transfer")).1
      v2RunComplete env workflowId st2 steps2 paymentId

/-- Step 4 of the first v2 definition (lines 177-219). -/
def v2RunDebit (env : Env) (input : PaymentInput) (workflowId : String)
    (st : St) (steps : List String) (paymentId : String) :
    PaymentResult × List Effect :=
  let steps2 := steps ++ ["DEBIT_ACCOUNT"]
  let st1 := (logAuditEvent env st workflowId "v2" "DEBIT_ACCOUNT" "PENDING" 0
    ("Debiting " ++ toString input.amount ++ " (post-fraud-check)")).1
  match debitAccount env env.accounts input.fromAccount input.amount with
  | .error e => v2Catch env st1 workflowId steps2 e
  | .ok dr =>
    if !dr.1.success then
      let st2 := (logAuditEvent env st1 workflowId "v2" "DEBIT_ACCOUNT"
        "FAILED" 0 "Debit failed: undefined").1
      let u := updatePaymentStatus env st2 paymentId "FAILED"
        (some "Debit failed")
      match u.2 with
      | .error e => v2Catch env u.1 workflowId steps2 e
      | .ok _ =>
        ({ success := false, paymentId := some paymentId,
           error := some "Account debit failed",
           executionSummary := v2Summary steps2 }, u.1.effects)
    else
      let st2 := (logAuditEvent env st1 workflowId "v2" "DEBIT_ACCOUNT"
        "SUCCESS" 0
        ("Account debited | New balance: " ++ toString dr.1.newBalance ++
          " | Fraud-cleared payment")).1
      v2RunCredit env input workflowId st2 steps2 paymentId dr.2

/-- Step 3 of the first v2 definition (lines 126-175): the fraud check. -/
def v2RunFraud (env : Env) (input : PaymentInput) (workflowId : String)
    (st : St) (steps : List String) (paymentId : String) :
    PaymentResult × List Effect :=
  let steps2 := steps ++ ["FRAUD_CHECK"]
  let st1 := (logAuditEvent env st workflowId "v2" "FRAUD_CHECK" "PENDING" 0
    ("⚡ FRAUD CHECK: Screening payment for amount " ++ toString input.amount)).1
  match performFraudCheck env input.fromAccount input.amount with
  | .error e => v2Catch env st1 workflowId steps2 e
  | .ok fraudResult =>
    if fraudResult.isBlocked then
      let st2 := (logAuditEvent env st1 workflowId "v2" "FRAUD_CHECK"
        "BLOCKED" 0
        ("🚨 FRAUD DETECTED: " ++ fraudResult.reason ++ " | Risk Score: " ++
          toString fraudResult.riskScore)).1
      let u := updatePaymentStatus env st2 paymentId "BLOCKED_FRAUD"
        (some ("Fraud detected: " ++ fraudResult.reason))
      match u.2 with
      | .error e => v2Catch env u.1 workflowId steps2 e
      | .ok _ =>
        ({ success := false, paymentId := some paymentId,
           error := some ("Fraud check failed: " ++ fraudResult.reason),
           executionSummary := v2Summary steps2 }, u.1.effects)
    else
      let st2 := (logAuditEvent env st1 workflowId "v2" "FRAUD_CHECK"
        "SUCCESS" 0
        ("✅ Fraud check passed | Risk Score: " ++
          toString fraudResult.riskScore ++ " | " ++ fraudResult.reason)).1
      v2RunDebit env input workflowId st2 steps2 paymentId

/-- Step 2 of the first v2 definition (lines 82-124). -/
def v2RunValidate (env : Env) (input : PaymentInput) (workflowId : String)
    (st : St) (steps : List String) (paymentId : String) :
    PaymentResult × List Effect :=
  let steps2 := steps ++ ["VALIDATE_ACCOUNT"]
  let st1 := (logAuditEvent env st workflowId "v2" "VALIDATE_ACCOUNT" "PENDING" 0
    ("Validating account " ++ input.fromAccount)).1
  match validateAccount env input.fromAccount input.amount with
  | .error e => v2Catch env st1 workflowId steps2 e
  | .ok validation =>
    if !validation.isValid then
      let st2 := (logAuditEvent env st1 workflowId "v2" "VALIDATE_ACCOUNT"
        "FAILED" 0 ("Validation failed: " ++ validation.reason)).1
      let u := updatePaymentStatus env st2 paymentId "FAILED"
        (some validation.reason)
      match u.2 with
      | .error e => v2Catch env u.1 workflowId steps2 e
      | .ok _ =>
        ({ success := false, paymentId := some paymentId,
           error := some validation.reason,
           executionSummary := v2Summary steps2 }, u.1.effects)
    else
      let st2 := (logAuditEvent env st1 workflowId "v2" "VALIDATE_ACCOUNT"
        "SUCCESS" 0
        ("Account validated | Balance: " ++
          toString (optBalance validation.account))).1
      v2RunFraud env input workflowId st2 steps2 paymentId

/-- First definition of `modernPaymentV2Workflow`
(lines 45-315 of `modern-payment-v2.ts`). -/
def modernPaymentV2Workflow (env : Env) (input : PaymentInput) :
    PaymentResult × List Effect :=
  let workflowId := "modern-v2-" ++ toString env.now
  let st0 : St := ⟨0, []⟩
  let steps1 : List String := ["CREATE_PAYMENT_REQUEST"]
  let st1 := (logAuditEvent env st0 workflowId "v2" "CREATE_PAYMENT_REQUEST"
    "PENDING" 0
    ("Starting v2 payment with fraud check: " ++ input.fromAccount ++ " → " ++
      input.toAccount ++ " | Amount: " ++ toString input.amount)).1
  match createPaymentRequest env input.fromAccount input.toAccount input.amount
      input.currency workflowId
      (input.description ++ " (v2 - With Fraud Check)") with
  | .error e => v2Catch env st1 workflowId steps1 e
  | .ok paymentId =>
    let st1b := (logAuditEvent env st1 workflowId "v2" "CREATE_PAYMENT_REQUEST"
      "SUCCESS" 0
      ("Payment request created: " ++ paymentId ++
        " | v2 workflow with fraud protection")).1
    v2RunValidate env input workflowId st1b steps1 paymentId

/-- Initial value of the `fraudCheckResult` variable of the second v2
definition (line 372 of `modern-payment-v2.ts`). -/
def pmInitialFraud : FraudSummary := ⟨false, 0, "none"⟩

/-- Summary shape of the second `modernPaymentV2Workflow` definition
(lines 366-671 of `modern-payment-v2.ts`).  `fcr` is `none` exactly where the
source return site omits the `fraudCheckResult` field. -/
def pmSummary (steps : List String) (fcr : Option FraudSummary) :
    ExecutionSummary :=
  ⟨0, steps, "Modern v2", "Temporal Orchestrated + PM Configured", fcr⟩

/-- Top-level `catch` of the second v2 definition (lines 645-670); the
current `fraudCheckResult` is always included in the summary. -/
def pmCatch (env : Env) (st : St) (workflowId : String) (steps : List String)
    (fcr : FraudSummary) (errorMessage : String) : PaymentResult × List Effect :=
  let st2 := (logAuditEvent env st workflowId "v2" "PAYMENT_FAILED" "FAILED" 0
    ("v2 Payment workflow failed: " ++ errorMessage ++
      " | Fraud check status: " ++
      (if fcr.performed then "completed" else "not reached"))).1
  ({ success := false, paymentId := none, error := some errorMessage,
     executionSummary := pmSummary steps (some fcr) }, st2.effects)

/-- Step 6 of the second v2 definition (lines 617-644). -/
def pmRunComplete (env : Env) (workflowId : String) (st : St)
    (steps : List String) (paymentId : String) (fcr : FraudSummary) :
    PaymentResult × List Effect :=
  let u := updatePaymentStatus env st paymentId "COMPLETED"
    (some "Payment processed successfully via v2 workflow with fraud protection")
  match u.2 with
  | .error e => pmCatch env u.1 workflowId steps fcr e
  | .ok _ =>
    let st2 := (logAuditEvent env u.1 workflowId "v2" "PAYMENT_COMPLETED"
      "SUCCESS" 0
      ("🎉 v2 Payment completed with fraud protection | Risk Score: " ++
        toString fcr.riskScore ++ " | PM Configuration Success | Duration: 0ms")).1
    ({ success := true, paymentId := some paymentId, error := none,
       executionSummary := pmSummary steps (some fcr) }, st2.effects)

/-- Step 5 of the second v2 definition (lines 563-615). -/
def pmRunCredit (env : Env) (input : PaymentInput) (workflowId : String)
    (st : St) (steps : List String) (paymentId : String) (fcr : FraudSummary)
    (accounts : List Account) : PaymentResult × List Effect :=
  let steps2 := steps ++ ["CREDIT_ACCOUNT"]
  let st1 := (logAuditEvent env st workflowId "v2" "CREDIT_ACCOUNT" "PENDING" 0
    ("Crediting " ++ toString input.amount ++ " to " ++ input.toAccount ++
      " | Secure payment completion")).1
  match creditAccount env accounts input.toAccount input.amount with
  | .error e => pmCatch env st1 workflowId steps2 fcr e
  | .ok cr =>
    if !cr.1.success then
      let st2 := (logAuditEvent env st1 workflowId "v2" "CREDIT_ACCOUNT"
        "FAILED" 0
        "Credit failed: undefined | v2 workflow compensation needed").1
      let u := updatePaymentStatus env st2 paymentId "FAILED"
        (some "Credit failed - compensation required")
      match u.2 with
      | .error e => pmCatch env u.1 workflowId steps2 fcr e
      | .ok _ =>
        ({ success := false, paymentId := some paymentId,
           error := some "Account credit failed",
           executionSummary := pmSummary steps2 (some fcr) }, u.1.effects)
    else
      let st2 := (logAuditEvent env st1 workflowId "v2" "CREDIT_ACCOUNT"
        "SUCCESS" 0
        ("Account credited | New balance: " ++ toString cr.1.newBalance ++
          " | Transaction: " ++ cr.1.transactionId ++
          " | Fraud-secured transfer")).1
      pmRunComplete env workflowId st2 steps2 paymentId fcr

/-- Step 4 of the second v2 definition (lines 514-561). -/
def pmRunDebit (env : Env) (input : PaymentInput) (workflowId : String)
    (st : St) (steps : List String) (paymentId : String) (fcr : FraudSummary) :
    PaymentResult × List Effect :=
  let steps2 := steps ++ ["DEBIT_ACCOUNT"]
  let st1 := (logAuditEvent env st workflowId "v2" "DEBIT_ACCOUNT" "PENDING" 0
    ("Debiting " ++ toString input.amount ++ " from " ++ input.fromAccount ++
      " | Post-fraud-check processing")).1
  match debitAccount env env.accounts input.fromAccount input.amount with
  | .error e => pmCatch env st1 workflowId steps2 fcr e
  | .ok dr =>
    if !dr.1.success then
      let st2 := (logAuditEvent env st1 workflowId "v2" "DEBIT_ACCOUNT"
        "FAILED" 0
        "Debit failed: undefined | v2 workflow error after fraud clearance").1
      let u := updatePaymentStatus env st2 paymentId "FAILED"
        (some "Debit failed")
      match u.2 with
      | .error e => pmCatch env u.1 workflowId steps2 fcr e
      | .ok _ =>
        ({ success := false, paymentId := some paymentId,
           error := some "Account debit failed",
           executionSummary := pmSummary steps2 (some fcr) }, u.1.effects)
    else
      let st2 := (logAuditEvent env st1 workflowId "v2" "DEBIT_ACCOUNT"
        "SUCCESS" 0
        ("Account debited | New balance: " ++ toString dr.1.newBalance ++
          " | Transaction: " ++ dr.1.transactionId ++
          " | Fraud-cleared payment")).1
      pmRunCredit env input workflowId st2 steps2 paymentId fcr dr.2

/-- Step 3 of the second v2 definition (lines 452-512): the fraud check; the
`fraudCheckResult` variable is reassigned after a successful activity call. -/
def pmRunFraud (env : Env) (input : PaymentInput) (workflowId : String)
    (st : St) (steps : List String) (paymentId : String) :
    PaymentResult × List Effect :=
  let steps2 := steps ++ ["FRAUD_CHECK"]
  let st1 := (logAuditEvent env st workflowId "v2" "FRAUD_CHECK" "PENDING" 0
    ("⚡ PM-CONFIGURED STEP: Performing fraud check | Amount: " ++
      toString input.amount ++ " | Threshold: $1000")).1
  match performFraudCheck env input.fromAccount input.amount with
  | .error e => pmCatch env st1 workflowId steps2 pmInitialFraud e
  | .ok fraudResult =>
    let fcr : FraudSummary := ⟨true, fraudResult.riskScore,
      if fraudResult.isBlocked then "blocked" else "approved"⟩
    if fraudResult.isBlocked then
      let st2 := (logAuditEvent env st1 workflowId "v2" "FRAUD_CHECK"
        "BLOCKED" 0
        ("🚨 FRAUD DETECTED: " ++ fraudResult.reason ++ " | Risk Score: " ++
          toString fraudResult.riskScore ++
          " | Payment blocked by PM-configured rule")).1
      let u := updatePaymentStatus env st2 paymentId "BLOCKED_FRAUD"
        (some ("Fraud detected: " ++ fraudResult.reason))
      match u.2 with
      | .error e => pmCatch env u.1 workflowId steps2 fcr e
      | .ok _ =>
        ({ success := false, paymentId := some paymentId,
           error := some ("Fraud check failed: " ++ fraudResult.reason),
           executionSummary := pmSummary steps2 (some fcr) }, u.1.effects)
    else
      let st2 := (logAuditEvent env st1 workflowId "v2" "FRAUD_CHECK"
        "SUCCESS" 0
        ("✅ Fraud check passed | Risk Score: " ++
          toString fraudResult.riskScore ++ " | " ++ fraudResult.reason ++
          " | PM-configured security validated")).1
      pmRunDebit env input workflowId st2 steps2 paymentId fcr

/-- Step 2 of the second v2 definition (lines 404-450): note that the
validation-failure return site omits the `fraudCheckResult` field. -/
def pmRunValidate (env : Env) (input : PaymentInput) (workflowId : String)
    (st : St) (steps : List String) (paymentId : String) :
    PaymentResult × List Effect :=
  let steps2 := steps ++ ["VALIDATE_ACCOUNT"]
  let st1 := (logAuditEvent env st workflowId "v2" "VALIDATE_ACCOUNT" "PENDING" 0
    ("Validating account " ++ input.fromAccount ++ " balance and status")).1
  match validateAccount env input.fromAccount input.amount with
  | .error e => pmCatch env st1 workflowId steps2 pmInitialFraud e
  | .ok validation =>
    if !validation.isValid then
      let st2 := (logAuditEvent env st1 workflowId "v2" "VALIDATE_ACCOUNT"
        "FAILED" 0
        ("Validation failed: " ++ validation.reason ++
          " | v2 workflow terminated")).1
      let u := updatePaymentStatus env st2 paymentId "FAILED"
        (some validation.reason)
      match u.2 with
      | .error e => pmCatch env u.1 workflowId steps2 pmInitialFraud e
      | .ok _ =>
        ({ success := false, paymentId := some paymentId,
           error := some validation.reason,
           executionSummary := pmSummary steps2 none }, u.1.effects)
    else
      let st2 := (logAuditEvent env st1 workflowId "v2" "VALIDATE_ACCOUNT"
        "SUCCESS" 0
        ("Account validated | Balance: " ++
          toString (optBalance validation.account) ++
          " | Proceeding to fraud check")).1
      pmRunFraud env input workflowId st2 steps2 paymentId

/-- Second definition of `modernPaymentV2Workflow`
(lines 366-671 of `modern-payment-v2.ts`). -/
def modernPaymentV2WorkflowPM (env : Env) (input : PaymentInput) :
    PaymentResult × List Effect :=
  let workflowId := "modern-v2-" ++ toString env.now
  let st0 : St := ⟨0, []⟩
  let steps1 : List String := ["CREATE_PAYMENT_REQUEST"]
  let st1 := (logAuditEvent env st0 workflowId "v2" "CREATE_PAYMENT_REQUEST"
    "PENDING" 0
    ("Starting modern payment v2 with fraud check - From: " ++
      input.fromAccount ++ ", To: " ++ input.toAccount ++ ", Amount: " ++
      toString input.amount ++ " " ++ input.currency)).1
  match createPaymentRequest env input.fromAccount input.toAccount input.amount
      input.currency workflowId
      (input.description ++ " (Modern v2 - PM Configured with Fraud Check)") with
  | .error e => pmCatch env st1 workflowId steps1 pmInitialFraud e
  | .ok paymentId =>
    let st1b := (logAuditEvent env st1 workflowId "v2" "CREATE_PAYMENT_REQUEST"
      "SUCCESS" 0
      ("Payment request created: " ++ paymentId ++
        " | v2 workflow with PM-configured fraud check")).1
    pmRunValidate env input workflowId st1b steps1 paymentId

/-- Canonical step ordering of the v1 variant. -/
def canonicalV1Order : List String :=
  ["CREATE_PAYMENT_REQUEST", "VALIDATE_ACCOUNT", "DEBIT_ACCOUNT",
    "CREDIT_ACCOUNT", "COMPLETE"]

/-- Canonical step ordering of the v2 variant. -/
def canonicalV2Order : List String :=
  ["CREATE_PAYMENT_REQUEST", "VALIDATE_ACCOUNT", "FRAUD_CHECK",
    "DEBIT_ACCOUNT", "CREDIT_ACCOUNT", "COMPLETE"]

/-- `s` is a proper (strict) prefix of `c`. -/
def properPrefixOf (s c : List String) : Prop :=
  ∃ t, t ≠ [] ∧ c = s ++ t

/-- The audit step/status pair of an effect (`none` for a status update). -/
def effectStepStatus (e : Effect) : Option (String × String) :=
  match e with
  | .audit _ _ step status _ _ => some (step, status)
  | .statusUpdate _ _ _ => none

/-- An effect that is not an audit emission of the debit-failed or
credit-failed branch. -/
def benignEffect (e : Effect) : Prop :=
  effectStepStatus e ≠ some ("DEBIT_ACCOUNT", "FAILED") ∧
  effectStepStatus e ≠ some ("CREDIT_ACCOUNT", "FAILED")

/-- Tells whether an effect is a payment-status update. -/
def isStatusUpdateEffect (e : Effect) : Bool :=
  match e with
  | .audit _ _ _ _ _ _ => false
  | .statusUpdate _ _ _ => true

/-- The core observable quadruple (plus version string) of a run output:
success flag, payment id, error, step trace, version. -/
def coreOut (out : PaymentResult × List Effect) :
    Bool × Option String × Option String × List String × String :=
  (out.1.success, out.1.paymentId, out.1.error,
    out.1.executionSummary.stepsExecuted, out.1.executionSummary.version)

/-! ### Helper lemmas: shape of the step traces -/

theorem v1Catch_fst (env : Env) (st : St) (w : String) (steps : List String)
    (msg : String) :
    (v1Catch env st w steps msg).1 =
      { success := false, paymentId := none, error := some msg,
        executionSummary := v1Summary steps } := rfl

theorem v1RunComplete_steps (env : Env) (w : String) (st : St)
    (steps : List String) (pid : String) :
    (v1RunComplete env w st steps pid).1.executionSummary.stepsExecuted = steps := by
  rcases hu : env.updateFail with _ | e <;>
    simp [v1RunComplete, updatePaymentStatus, hu, v1Catch, v1Summary,
      logAuditEvent, pushAudit]

theorem v1RunCredit_steps (env : Env) (input : PaymentInput) (w : String)
    (st : St) (steps : List String) (pid : String) (accounts : List Account) :
    (v1RunCredit env input w st steps pid accounts).1.executionSummary.stepsExecuted =
      steps ++ ["CREDIT_ACCOUNT"] := by
  simp only [v1RunCredit]
  rcases hc : creditAccount env accounts input.toAccount input.amount with e | cr
  · simp [v1Catch, v1Summary]
  · rcases hs : cr.1.success <;>
      simp [hs, v1RunComplete_steps, v1Catch, v1Summary, updatePaymentStatus]
    rcases hu : env.updateFail with _ | e <;> simp [hu]

theorem v1RunDebit_steps (env : Env) (input : PaymentInput) (w : String)
    (st : St) (steps : List String) (pid : String) :
    (v1RunDebit env input w st steps pid).1.executionSummary.stepsExecuted =
        steps ++ ["DEBIT_ACCOUNT"] ∨
      (v1RunDebit env input w st steps pid).1.executionSummary.stepsExecuted =
        steps ++ ["DEBIT_ACCOUNT", "CREDIT_ACCOUNT"] := by
  simp only [v1RunDebit]
  rcases hd : debitAccount env env.accounts input.fromAccount input.amount with e | dr
  · left; simp [v1Catch, v1Summary]
  · rcases hs : dr.1.success
    · left
      simp only [hs, Bool.not_false, if_true]
      rcases hu : env.updateFail with _ | e <;>
        simp [updatePaymentStatus, hu, v1Catch, v1Summary]
    · right
      simp [hs, v1RunCredit_steps]

theorem v1RunValidate_steps (env : Env) (input : PaymentInput) (w : String)
    (st : St) (steps : List String) (pid : String) :
    (v1RunValidate env input w st steps pid).1.executionSummary.stepsExecuted =
        steps ++ ["VALIDATE_ACCOUNT"] ∨
      (v1RunValidate env input w st steps pid).1.executionSummary.stepsExecuted =
        steps ++ ["VALIDATE_ACCOUNT", "DEBIT_ACCOUNT"] ∨
      (v1RunValidate env input w st steps pid).1.executionSummary.stepsExecuted =
        steps ++ ["VALIDATE_ACCOUNT", "DEBIT_ACCOUNT", "CREDIT_ACCOUNT"] := by
  simp only [v1RunValidate]
  rcases hv : validateAccount env input.fromAccount input.amount with e | v
  · left; simp [v1Catch, v1Summary]
  · rcases hs : v.isValid
    · left
      simp only [hs, Bool.not_false, if_true]
      rcases hu : env.updateFail with _ | e <;>
        simp [updatePaymentStatus, hu, v1Catch, v1Summary]
    · rcases v1RunDebit_steps env input w
          ((logAuditEvent env
            ((logAuditEvent env st w "v1" "VALIDATE_ACCOUNT" "PENDING" 0
              ("Validating account " ++ input.fromAccount ++ " balance and status")).1)
            w "v1" "VALIDATE_ACCOUNT" "SUCCESS" 0
            ("Account validated | Balance: " ++ toString (optBalance v.account) ++
              " | Temporal provides step-level observability")).1)
          (steps ++ ["VALIDATE_ACCOUNT"]) pid with h | h
      · right; left; simp [hs, h]
      · right; right; simp [hs, h]

theorem v1_steps_cases (env : Env) (input : PaymentInput) :
    (modernPaymentV1Workflow env input).1.executionSummary.stepsExecuted =
        ["CREATE_PAYMENT_REQUEST"] ∨
      (modernPaymentV1Workflow env input).1.executionSummary.stepsExecuted =
        ["CREATE_PAYMENT_REQUEST", "VALIDATE_ACCOUNT"] ∨
      (modernPaymentV1Workflow env input).1.executionSummary.stepsExecuted =
        ["CREATE_PAYMENT_REQUEST", "VALIDATE_ACCOUNT", "DEBIT_ACCOUNT"] ∨
      (modernPaymentV1Workflow env input).1.executionSummary.stepsExecuted =
        ["CREATE_PAYMENT_REQUEST", "VALIDATE_ACCOUNT", "DEBIT_ACCOUNT",
          "CREDIT_ACCOUNT"] := by
  simp only [modernPaymentV1Workflow]
  rcases hc : createPaymentRequest env input.fromAccount input.toAccount
      input.amount input.currency ("modern-v1-" ++ toString env.now)
      (input.description ++ " (Orchestrated v1)") with e | pid
  · left; simp [v1Catch, v1Summary]
  · rcases v1RunValidate_steps env input ("modern-v1-" ++ toString env.now)
        ((logAuditEvent env
          ((logAuditEvent env ⟨0, []⟩ ("modern-v1-" ++ toString env.now) "v1"
            "CREATE_PAYMENT_REQUEST" "PENDING" 0
            ("Starting payment: " ++ input.fromAccount ++ " → " ++
              input.toAccount ++ " | Amount: " ++ toString input.amount ++ " " ++
              input.currency)).1)
          ("modern-v1-" ++ toString env.now) "v1" "CREATE_PAYMENT_REQUEST"
          "SUCCESS" 0
          ("Payment request created: " ++ pid ++
            " | Temporal ensures durable execution")).1)
        ["CREATE_PAYMENT_REQUEST"] pid with h | h | h
    · right; left; simp [h]
    · right; right; left; simp [h]
    · right; right; right; simp [h]

theorem v2RunComplete_steps (env : Env) (w : String) (st : St)
    (steps : List String) (pid : String) :
    (v2RunComplete env w st steps pid).1.executionSummary.stepsExecuted = steps := by
  rcases hu : env.updateFail with _ | e <;>
    simp [v2RunComplete, updatePaymentStatus, hu, v2Catch, v2Summary,
      logAuditEvent, pushAudit]

theorem v2RunCredit_steps (env : Env) (input : PaymentInput) (w : String)
    (st : St) (steps : List String) (pid : String) (accounts : List Account) :
    (v2RunCredit env input w st steps pid accounts).1.executionSummary.stepsExecuted =
      steps ++ ["CREDIT_ACCOUNT"] := by
  simp only [v2RunCredit]
  rcases hc : creditAccount env accounts input.toAccount input.amount with e | cr
  · simp [v2Catch, v2Summary]
  · rcases hs : cr.1.success <;>
      simp [hs, v2RunComplete_steps, v2Catch, v2Summary, updatePaymentStatus]
    rcases hu : env.updateFail with _ | e <;> simp [hu]

theorem v2RunDebit_steps (env : Env) (input : PaymentInput) (w : String)
    (st : St) (steps : List String) (pid : String) :
    (v2RunDebit env input w st steps pid).1.executionSummary.stepsExecuted =
        steps ++ ["DEBIT_ACCOUNT"] ∨
      (v2RunDebit env input w st steps pid).1.executionSummary.stepsExecuted =
        steps ++ ["DEBIT_ACCOUNT", "CREDIT_ACCOUNT"] := by
  simp only [v2RunDebit]
  rcases hd : debitAccount env env.accounts input.fromAccount input.amount with e | dr
  · left; simp [v2Catch, v2Summary]
  · rcases hs : dr.1.success
    · left
      simp only [hs, Bool.not_false, if_true]
      rcases hu : env.updateFail with _ | e <;>
        simp [updatePaymentStatus, hu, v2Catch, v2Summary]
    · right
      simp [hs, v2RunCredit_steps]

theorem v2RunFraud_steps (env : Env) (input : PaymentInput) (w : String)
    (st : St) (steps : List String) (pid : String) :
    (v2RunFraud env input w st steps pid).1.executionSummary.stepsExecuted =
        steps ++ ["FRAUD_CHECK"] ∨
      (v2RunFraud env input w st steps pid).1.executionSummary.stepsExecuted =
        steps ++ ["FRAUD_CHECK", "DEBIT_ACCOUNT"] ∨
      (v2RunFraud env input w st steps pid).1.executionSummary.stepsExecuted =
        steps ++ ["FRAUD_CHECK", "DEBIT_ACCOUNT", "CREDIT_ACCOUNT"] := by
  simp only [v2RunFraud]
  rcases hf : performFraudCheck env input.fromAccount input.amount with e | fr
  · left; simp [v2Catch, v2Summary]
  · rcases hb : fr.isBlocked
    · rcases v2RunDebit_steps env input w
          ((logAuditEvent env
            ((logAuditEvent env st w "v2" "FRAUD_CHECK" "PENDING" 0
              ("⚡ FRAUD CHECK: Screening payment for amount " ++
                toString input.amount)).1)
            w "v2" "FRAUD_CHECK" "SUCCESS" 0
            ("✅ Fraud check passed | Risk Score: " ++ toString fr.riskScore ++
              " | " ++ fr.reason)).1)
          (steps ++ ["FRAUD_CHECK"]) pid with h | h
      · right; left; simp [hb, h]
      · right; right; simp [hb, h]
    · left
      simp only [hb, if_true]
      rcases hu : env.updateFail with _ | e <;>
        simp [updatePaymentStatus, hu, v2Catch, v2Summary]

theorem v2RunValidate_steps (env : Env) (input : PaymentInput) (w : String)
    (st : St) (steps : List String) (pid : String) :
    (v2RunValidate env input w st steps pid).1.executionSummary.stepsExecuted =
        steps ++ ["VALIDATE_ACCOUNT"] ∨
      (v2RunValidate env input w st steps pid).1.executionSummary.stepsExecuted =
        steps ++ ["VALIDATE_ACCOUNT", "FRAUD_CHECK"] ∨
      (v2RunValidate env input w st steps pid).1.executionSummary.stepsExecuted =
        steps ++ ["VALIDATE_ACCOUNT", "FRAUD_CHECK", "DEBIT_ACCOUNT"] ∨
      (v2RunValidate env input w st steps pid).1.executionSummary.stepsExecuted =
        steps ++ ["VALIDATE_ACCOUNT", "FRAUD_CHECK", "DEBIT_ACCOUNT",
          "CREDIT_ACCOUNT"] := by
  simp only [v2RunValidate]
  rcases hv : validateAccount env input.fromAccount input.amount with e | v
  · left; simp [v2Catch, v2Summary]
  · rcases hs : v.isValid
    · left
      simp only [hs, Bool.not_false, if_true]
      rcases hu : env.updateFail with _ | e <;>
        simp [updatePaymentStatus, hu, v2Catch, v2Summary]
    · rcases v2RunFraud_steps env input w
          ((logAuditEvent env
            ((logAuditEvent env st w "v2" "VALIDATE_ACCOUNT" "PENDING" 0
              ("Validating account " ++ input.fromAccount)).1)
            w "v2" "VALIDATE_ACCOUNT" "SUCCESS" 0
            ("Account validated | Balance: " ++
              toString (optBalance v.account))).1)
          (steps ++ ["VALIDATE_ACCOUNT"]) pid with h | h | h
      · right; left; simp [hs, h]
      · right; right; left; simp [hs, h]
      · right; right; right; simp [hs, h]

theorem v2_steps_cases (env : Env) (input : PaymentInput) :
    (modernPaymentV2Workflow env input).1.executionSummary.stepsExecuted =
        ["CREATE_PAYMENT_REQUEST"] ∨
      (modernPaymentV2Workflow env input).1.executionSummary.stepsExecuted =
        ["CREATE_PAYMENT_REQUEST", "VALIDATE_ACCOUNT"] ∨
      (modernPaymentV2Workflow env input).1.executionSummary.stepsExecuted =
        ["CREATE_PAYMENT_REQUEST", "VALIDATE_ACCOUNT", "FRAUD_CHECK"] ∨
      (modernPaymentV2Workflow env input).1.executionSummary.stepsExecuted =
        ["CREATE_PAYMENT_REQUEST", "VALIDATE_ACCOUNT", "FRAUD_CHECK",
          "DEBIT_ACCOUNT"] ∨
      (modernPaymentV2Workflow env input).1.executionSummary.stepsExecuted =
        ["CREATE_PAYMENT_REQUEST", "VALIDATE_ACCOUNT", "FRAUD_CHECK",
          "DEBIT_ACCOUNT", "CREDIT_ACCOUNT"] := by
  simp only [modernPaymentV2Workflow]
  rcases hc : createPaymentRequest env input.fromAccount input.toAccount
      input.amount input.currency ("modern-v2-" ++ toString env.now)
      (input.description ++ " (v2 - With Fraud Check)") with e | pid
  · left; simp [v2Catch, v2Summary]
  · rcases v2RunValidate_steps env input ("modern-v2-" ++ toString env.now)
        ((logAuditEvent env
          ((logAuditEvent env ⟨0, []⟩ ("modern-v2-" ++ toString env.now) "v2"
            "CREATE_PAYMENT_REQUEST" "PENDING" 0
            ("Starting v2 payment with fraud check: " ++ input.fromAccount ++
              " → " ++ input.toAccount ++ " | Amount: " ++
              toString input.amount)).1)
          ("modern-v2-" ++ toString env.now) "v2" "CREATE_PAYMENT_REQUEST"
          "SUCCESS" 0
          ("Payment request created: " ++ pid ++
            " | v2 workflow with fraud protection")).1)
        ["CREATE_PAYMENT_REQUEST"] pid with h | h | h | h
    · right; left; simp [h]
    · right; right; left; simp [h]
    · right; right; right; left; simp [h]
    · right; right; right; right; simp [h]

theorem pmRunComplete_steps (env : Env) (w : String) (st : St)
    (steps : List String) (pid : String) (fcr : FraudSummary) :
    (pmRunComplete env w st steps pid fcr).1.executionSummary.stepsExecuted = steps := by
  rcases hu : env.updateFail with _ | e <;>
    simp [pmRunComplete, updatePaymentStatus, hu, pmCatch, pmSummary,
      logAuditEvent, pushAudit]

theorem pmRunCredit_steps (env : Env) (input : PaymentInput) (w : String)
    (st : St) (steps : List String) (pid : String) (fcr : FraudSummary)
    (accounts : List Account) :
    (pmRunCredit env input w st steps pid fcr accounts).1.executionSummary.stepsExecuted =
      steps ++ ["CREDIT_ACCOUNT"] := by
  simp only [pmRunCredit]
  rcases hc : creditAccount env accounts input.toAccount input.amount with e | cr
  · simp [pmCatch, pmSummary]
  · rcases hs : cr.1.success <;>
      simp [hs, pmRunComplete_steps, pmCatch, pmSummary, updatePaymentStatus]
    rcases hu : env.updateFail with _ | e <;> simp [hu]

theorem pmRunDebit_steps (env : Env) (input : PaymentInput) (w : String)
    (st : St) (steps : List String) (pid : String) (fcr : FraudSummary) :
    (pmRunDebit env input w st steps pid fcr).1.executionSummary.stepsExecuted =
        steps ++ ["DEBIT_ACCOUNT"] ∨
      (pmRunDebit env input w st steps pid fcr).1.executionSummary.stepsExecuted =
        steps ++ ["DEBIT_ACCOUNT", "CREDIT_ACCOUNT"] := by
  simp only [pmRunDebit]
  rcases hd : debitAccount env env.accounts input.fromAccount input.amount with e | dr
  · left; simp [pmCatch, pmSummary]
  · rcases hs : dr.1.success
    · left
      simp only [hs, Bool.not_false, if_true]
      rcases hu : env.updateFail with _ | e <;>
        simp [updatePaymentStatus, hu, pmCatch, pmSummary]
    · right
      simp [hs, pmRunCredit_steps]

theorem pmRunFraud_steps (env : Env) (input : PaymentInput) (w : String)
    (st : St) (steps : List String) (pid : String) :
    (pmRunFraud env input w st steps pid).1.executionSummary.stepsExecuted =
        steps ++ ["FRAUD_CHECK"] ∨
      (pmRunFraud env input w st steps pid).1.executionSummary.stepsExecuted =
        steps ++ ["FRAUD_CHECK", "DEBIT_ACCOUNT"] ∨
      (pmRunFraud env input w st steps pid).1.executionSummary.stepsExecuted =
        steps ++ ["FRAUD_CHECK", "DEBIT_ACCOUNT", "CREDIT_ACCOUNT"] := by
  simp only [pmRunFraud]
  rcases hf : performFraudCheck env input.fromAccount input.amount with e | fr
  · left; simp [pmCatch, pmSummary]
  · rcases hb : fr.isBlocked
    · rcases pmRunDebit_steps env input w
          ((logAuditEvent env
            ((logAuditEvent env st w "v2" "FRAUD_CHECK" "PENDING" 0
              ("⚡ PM-CONFIGURED STEP: Performing fraud check | Amount: " ++
                toString input.amount ++ " | Threshold: $1000")).1)
            w "v2" "FRAUD_CHECK" "SUCCESS" 0
            ("✅ Fraud check passed | Risk Score: " ++ toString fr.riskScore ++
              " | " ++ fr.reason ++ " | PM-configured security validated")).1)
          (steps ++ ["FRAUD_CHECK"]) pid
          ⟨true, fr.riskScore, if fr.isBlocked then "blocked" else "approved"⟩
          with h | h
      · right; left; simp [hb] at h ⊢; exact h
      · right; right; simp [hb] at h ⊢; exact h
    · left
      simp only [hb, if_true]
      rcases hu : env.updateFail with _ | e <;>
        simp [updatePaymentStatus, hu, pmCatch, pmSummary]

theorem pmRunValidate_steps (env : Env) (input : PaymentInput) (w : String)
    (st : St) (steps : List String) (pid : String) :
    (pmRunValidate env input w st steps pid).1.executionSummary.stepsExecuted =
        steps ++ ["VALIDATE_ACCOUNT"] ∨
      (pmRunValidate env input w st steps pid).1.executionSummary.stepsExecuted =
        steps ++ ["VALIDATE_ACCOUNT", "FRAUD_CHECK"] ∨
      (pmRunValidate env input w st steps pid).1.executionSummary.stepsExecuted =
        steps ++ ["VALIDATE_ACCOUNT", "FRAUD_CHECK", "DEBIT_ACCOUNT"] ∨
      (pmRunValidate env input w st steps pid).1.executionSummary.stepsExecuted =
        steps ++ ["VALIDATE_ACCOUNT", "FRAUD_CHECK", "DEBIT_ACCOUNT",
          "CREDIT_ACCOUNT"] := by
  simp only [pmRunValidate]
  rcases hv : validateAccount env input.fromAccount input.amount with e | v
  · left; simp [pmCatch, pmSummary]
  · rcases hs : v.isValid
    · left
      simp only [hs, Bool.not_false, if_true]
      rcases hu : env.updateFail with _ | e <;>
        simp [updatePaymentStatus, hu, pmCatch, pmSummary]
    · rcases pmRunFraud_steps env input w
          ((logAuditEvent env
            ((logAuditEvent env st w "v2" "VALIDATE_ACCOUNT" "PENDING" 0
              ("Validating account " ++ input.fromAccount ++
                " balance and status")).1)
            w "v2" "VALIDATE_ACCOUNT" "SUCCESS" 0
            ("Account validated | Balance: " ++
              toString (optBalance v.account) ++
              " | Proceeding to fraud check")).1)
          (steps ++ ["VALIDATE_ACCOUNT"]) pid with h | h | h
      · right; left; simp [hs, h]
      · right; right; left; simp [hs, h]
      · right; right; right; simp [hs, h]

theorem pm_steps_cases (env : Env) (input : PaymentInput) :
    (modernPaymentV2WorkflowPM env input).1.executionSummary.stepsExecuted =
        ["CREATE_PAYMENT_REQUEST"] ∨
      (modernPaymentV2WorkflowPM env input).1.executionSummary.stepsExecuted =
        ["CREATE_PAYMENT_REQUEST", "VALIDATE_ACCOUNT"] ∨
      (modernPaymentV2WorkflowPM env input).1.executionSummary.stepsExecuted =
        ["CREATE_PAYMENT_REQUEST", "VALIDATE_ACCOUNT", "FRAUD_CHECK"] ∨
      (modernPaymentV2WorkflowPM env input).1.executionSummary.stepsExecuted =
        ["CREATE_PAYMENT_REQUEST", "VALIDATE_ACCOUNT", "FRAUD_CHECK",
          "DEBIT_ACCOUNT"] ∨
      (modernPaymentV2WorkflowPM env input).1.executionSummary.stepsExecuted =
        ["CREATE_PAYMENT_REQUEST", "VALIDATE_ACCOUNT", "FRAUD_CHECK",
          "DEBIT_ACCOUNT", "CREDIT_ACCOUNT"] := by
  simp only [modernPaymentV2WorkflowPM]
  rcases hc : createPaymentRequest env input.fromAccount input.toAccount
      input.amount input.currency ("modern-v2-" ++ toString env.now)
      (input.description ++ " (Modern v2 - PM Configured with Fraud Check)")
      with e | pid
  · left; simp [pmCatch, pmSummary]
  · rcases pmRunValidate_steps env input ("modern-v2-" ++ toString env.now)
        ((logAuditEvent env
          ((logAuditEvent env ⟨0, []⟩ ("modern-v2-" ++ toString env.now) "v2"
            "CREATE_PAYMENT_REQUEST" "PENDING" 0
            ("Starting modern payment v2 with fraud check - From: " ++
              input.fromAccount ++ ", To: " ++ input.toAccount ++
              ", Amount: " ++ toString input.amount ++ " " ++
              input.currency)).1)
          ("modern-v2-" ++ toString env.now) "v2" "CREATE_PAYMENT_REQUEST"
          "SUCCESS" 0
          ("Payment request created: " ++ pid ++
            " | v2 workflow with PM-configured fraud check")).1)
        ["CREATE_PAYMENT_REQUEST"] pid with h | h | h | h
    · right; left; simp [h]
    · right; right; left; simp [h]
    · right; right; right; left; simp [h]
    · right; right; right; right; simp [h]

/-! ### Helper lemmas: the three validation reason strings are distinct -/

theorem notFound_ne_inactive (n s : String) :
    notFoundReason n ≠ inactiveReason n s := by
  intro h
  have h1 := congrArg String.data h
  simp only [notFoundReason, inactiveReason, String.data_append,
    List.append_assoc] at h1
  have h2 := List.append_cancel_left (List.append_cancel_left h1)
  have h3 := congrArg (fun l => l.get? 1) h2
  simp only [List.cons_append, List.get?] at h3
  exact absurd h3 (by decide)

theorem notFound_ne_insufficient (n : String) (b q : Int) :
    notFoundReason n ≠ insufficientFundsReason b q := by
  intro h
  have h1 := congrArg (fun str => str.data.get? 0) h
  simp only [notFoundReason, insufficientFundsReason, String.data_append,
    List.append_assoc, List.cons_append, List.get?] at h1
  exact absurd h1 (by decide)

theorem inactive_ne_insufficient (n s : String) (b q : Int) :
    inactiveReason n s ≠ insufficientFundsReason b q := by
  intro h
  have h1 := congrArg (fun str => str.data.get? 0) h
  simp only [inactiveReason, insufficientFundsReason, String.data_append,
    List.append_assoc, List.cons_append, List.get?] at h1
  exact absurd h1 (by decide)

/-! ### Helper lemmas: outcome of the v1 run at the validation step -/

theorem v1_validate_fail_result (env : Env) (input : PaymentInput)
    (hc : env.createFail = none) (hu : env.updateFail = none)
    (v : ValidationOutcome)
    (hval : validateAccount env input.fromAccount input.amount = .ok v)
    (hinvalid : v.isValid = false) :
    (modernPaymentV1Workflow env input).1 =
      { success := false, paymentId := some env.createdPaymentId,
        error := some v.reason,
        executionSummary :=
          v1Summary ["CREATE_PAYMENT_REQUEST", "VALIDATE_ACCOUNT"] } := by
  simp [modernPaymentV1Workflow, createPaymentRequest, hc, v1RunValidate, hval,
    hinvalid, updatePaymentStatus, hu]

theorem v1RunDebit_debit_mem (env : Env) (input : PaymentInput) (w : String)
    (st : St) (steps : List String) (pid : String) :
    "DEBIT_ACCOUNT" ∈ (v1RunDebit env input w st steps pid).1.executionSummary.stepsExecuted := by
  rcases v1RunDebit_steps env input w st steps pid with h | h <;> rw [h] <;> simp

theorem v1_validate_ok_debit_mem (env : Env) (input : PaymentInput)
    (hc : env.createFail = none) (v : ValidationOutcome)
    (hval : validateAccount env input.fromAccount input.amount = .ok v)
    (hvalid : v.isValid = true) :
    "DEBIT_ACCOUNT" ∈ (modernPaymentV1Workflow env input).1.executionSummary.stepsExecuted := by
  simp only [modernPaymentV1Workflow, createPaymentRequest, hc]
  simp only [v1RunValidate, hval, hvalid, Bool.not_true, Bool.false_eq_true,
    if_false]
  exact v1RunDebit_debit_mem _ _ _ _ _ _

/-! ### Claim theorems -/

/-- C1: in a run (with the payment-request creation and the validation GET
succeeding, and the status update not itself failing), the VALIDATE_ACCOUNT
step fails — terminating the run with `success = false` after exactly the
steps CREATE_PAYMENT_REQUEST, VALIDATE_ACCOUNT — precisely when the source
account is not found, its status is not ACTIVE, or its balance is strictly
below the requested amount; each condition yields its own reason string,
returned verbatim in `PaymentResult.error`, and the three reason strings are
pairwise distinct.  When the account is found ACTIVE with sufficient balance
the run instead proceeds to DEBIT_ACCOUNT. -/
theorem claim_C1 (env : Env) (input : PaymentInput)
    (hc : env.createFail = none) (hv : env.validateGetFail = none)
    (hu : env.updateFail = none) :
    (match env.accounts.find? (fun acc => acc.accountNumber == input.fromAccount) with
      | none =>
        (modernPaymentV1Workflow env input).1.success = false ∧
        (modernPaymentV1Workflow env input).1.error =
          some (notFoundReason input.fromAccount) ∧
        (modernPaymentV1Workflow env input).1.executionSummary.stepsExecuted =
          ["CREATE_PAYMENT_REQUEST", "VALIDATE_ACCOUNT"]
      | some a =>
        (a.status ≠ "ACTIVE" →
          (modernPaymentV1Workflow env input).1.success = false ∧
          (modernPaymentV1Workflow env input).1.error =
            some (inactiveReason input.fromAccount a.status) ∧
          (modernPaymentV1Workflow env input).1.executionSummary.stepsExecuted =
            ["CREATE_PAYMENT_REQUEST", "VALIDATE_ACCOUNT"]) ∧
        (a.status = "ACTIVE" → a.balance < input.amount →
          (modernPaymentV1Workflow env input).1.success = false ∧
          (modernPaymentV1Workflow env input).1.error =
            some (insufficientFundsReason a.balance input.amount) ∧
          (modernPaymentV1Workflow env input).1.executionSummary.stepsExecuted =
            ["CREATE_PAYMENT_REQUEST", "VALIDATE_ACCOUNT"]) ∧
        (a.status = "ACTIVE" → input.amount ≤ a.balance →
          "DEBIT_ACCOUNT" ∈
            (modernPaymentV1Workflow env input).1.executionSummary.stepsExecuted)) ∧
    (∀ (n s : String) (b q : Int),
      notFoundReason n ≠ inactiveReason n s ∧
      notFoundReason n ≠ insufficientFundsReason b q ∧
      inactiveReason n s ≠ insufficientFundsReason b q) := by
  refine ⟨?_, fun n s b q =>
    ⟨notFound_ne_inactive n s, notFound_ne_insufficient n b q,
      inactive_ne_insufficient n s b q⟩⟩
  rcases hfind : env.accounts.find? (fun acc => acc.accountNumber == input.fromAccount)
      with _ | a <;> rw [hfind]
  · have hval : validateAccount env input.fromAccount input.amount =
        .ok ⟨false, none, notFoundReason input.fromAccount⟩ := by
      simp [validateAccount, hv, hfind]
    have hres := v1_validate_fail_result env input hc hu _ hval rfl
    simp [hres, v1Summary]
  · refine ⟨?_, ?_, ?_⟩
    · intro hstat
      have hval : validateAccount env input.fromAccount input.amount =
          .ok ⟨false, some a, inactiveReason input.fromAccount a.status⟩ := by
        simp [validateAccount, hv, hfind, bne_iff_ne, hstat]
      have hres := v1_validate_fail_result env input hc hu _ hval rfl
      simp [hres, v1Summary]
    · intro hstat hlt
      have hval : validateAccount env input.fromAccount input.amount =
          .ok ⟨false, some a, insufficientFundsReason a.balance input.amount⟩ := by
        simp [validateAccount, hv, hfind, hstat, hlt]
      have hres := v1_validate_fail_result env input hc hu _ hval rfl
      simp [hres, v1Summary]
    · intro hstat hle
      have hval : validateAccount env input.fromAccount input.amount =
          .ok ⟨true, some a, "Account validation successful"⟩ := by
        simp [validateAccount, hv, hfind, hstat, not_lt.mpr hle]
      exact v1_validate_ok_debit_mem env input hc _ hval rfl

/-- C1 witness: a concrete insufficient-funds run exercising the theorem. -/
theorem claim_C1_witness :
    (let env : Env := ⟨[⟨"1", "ACC1", "CUST1", 500, "USD", "ACTIVE", "CHECKING",
        "2024-01-01"⟩], [], none, none, none, "PAY_1", none, none, none, none,
        none, fun _ => true, 0⟩
     let input : PaymentInput := ⟨"ACC1", "ACC2", 2000, "USD", "rent"⟩
     (modernPaymentV1Workflow env input).1.error =
       some (insufficientFundsReason 500 2000)) := by
  have h := claim_C1
    ⟨[⟨"1", "ACC1", "CUST1", 500, "USD", "ACTIVE", "CHECKING", "2024-01-01"⟩],
      [], none, none, none, "PAY_1", none, none, none, none, none,
      fun _ => true, 0⟩
    ⟨"ACC1", "ACC2", 2000, "USD", "rent"⟩ rfl rfl rfl
  rw [show (⟨[⟨"1", "ACC1", "CUST1", 500, "USD", "ACTIVE", "CHECKING",
      "2024-01-01"⟩], [], none, none, none, "PAY_1", none, none, none, none,
      none, fun _ => true, 0⟩ : Env).accounts.find?
      (fun acc => acc.accountNumber == "ACC1") =
      some ⟨"1", "ACC1", "CUST1", 500, "USD", "ACTIVE", "CHECKING",
        "2024-01-01"⟩ from rfl] at h
  exact (h.1.2.1 rfl (by decide)).2.1

/-- C5: for every run of any of the three workflow definitions, the recorded
`stepsExecuted` is a strict prefix of the canonical step ordering of the
chosen variant and contains no duplicate step. -/
theorem claim_C5 (env : Env) (input : PaymentInput) :
    (properPrefixOf
        (modernPaymentV1Workflow env input).1.executionSummary.stepsExecuted
        canonicalV1Order ∧
      (modernPaymentV1Workflow env input).1.executionSummary.stepsExecuted.Nodup) ∧
    (properPrefixOf
        (modernPaymentV2Workflow env input).1.executionSummary.stepsExecuted
        canonicalV2Order ∧
      (modernPaymentV2Workflow env input).1.executionSummary.stepsExecuted.Nodup) ∧
    (properPrefixOf
        (modernPaymentV2WorkflowPM env input).1.executionSummary.stepsExecuted
        canonicalV2Order ∧
      (modernPaymentV2WorkflowPM env input).1.executionSummary.stepsExecuted.Nodup) := by
  refine ⟨?_, ?_, ?_⟩
  · rcases v1_steps_cases env input with h | h | h | h <;> rw [h] <;> first
      | exact ⟨⟨canonicalV1Order.drop 1, by decide, by decide⟩, by decide⟩
      | exact ⟨⟨canonicalV1Order.drop 2, by decide, by decide⟩, by decide⟩
      | exact ⟨⟨canonicalV1Order.drop 3, by decide, by decide⟩, by decide⟩
      | exact ⟨⟨canonicalV1Order.drop 4, by decide, by decide⟩, by decide⟩
  · rcases v2_steps_cases env input with h | h | h | h | h <;> rw [h] <;> first
      | exact ⟨⟨canonicalV2Order.drop 1, by decide, by decide⟩, by decide⟩
      | exact ⟨⟨canonicalV2Order.drop 2, by decide, by decide⟩, by decide⟩
      | exact ⟨⟨canonicalV2Order.drop 3, by decide, by decide⟩, by decide⟩
      | exact ⟨⟨canonicalV2Order.drop 4, by decide, by decide⟩, by decide⟩
      | exact ⟨⟨canonicalV2Order.drop 5, by decide, by decide⟩, by decide⟩
  · rcases pm_steps_cases env input with h | h | h | h | h <;> rw [h] <;> first
      | exact ⟨⟨canonicalV2Order.drop 1, by decide, by decide⟩, by decide⟩
      | exact ⟨⟨canonicalV2Order.drop 2, by decide, by decide⟩, by decide⟩
      | exact ⟨⟨canonicalV2Order.drop 3, by decide, by decide⟩, by decide⟩
      | exact ⟨⟨canonicalV2Order.drop 4, by decide, by decide⟩, by decide⟩
      | exact ⟨⟨canonicalV2Order.drop 5, by decide, by decide⟩, by decide⟩

/-- C3: variant routing is decided solely by the amount at the accepted start
boundary: `amount ≥ 1000` yields the v2 route and a workflow id with prefix
`modern-v2-`, and in any v2 run FRAUD_CHECK precedes DEBIT_ACCOUNT whenever
DEBIT_ACCOUNT is reached; `amount < 1000` yields the v1 route, a workflow id
with prefix `modern-v1-`, and FRAUD_CHECK never occurs in a v1 trace. -/
theorem claim_C3 (f t c d suffix : String) (amount : Int) (env : Env)
    (haccept : startPaymentAccepted f t amount = true) :
    (1000 ≤ amount →
      routePayment amount = "v2" ∧
      boundaryWorkflowId amount suffix = "modern-v2-" ++ suffix ∧
      ("DEBIT_ACCOUNT" ∈
          (modernPaymentV2Workflow env ⟨f, t, amount, c, d⟩).1.executionSummary.stepsExecuted →
        (modernPaymentV2Workflow env ⟨f, t, amount, c, d⟩).1.executionSummary.stepsExecuted.take 4 =
          ["CREATE_PAYMENT_REQUEST", "VALIDATE_ACCOUNT", "FRAUD_CHECK",
            "DEBIT_ACCOUNT"]) ∧
      ("DEBIT_ACCOUNT" ∈
          (modernPaymentV2WorkflowPM env ⟨f, t, amount, c, d⟩).1.executionSummary.stepsExecuted →
        (modernPaymentV2WorkflowPM env ⟨f, t, amount, c, d⟩).1.executionSummary.stepsExecuted.take 4 =
          ["CREATE_PAYMENT_REQUEST", "VALIDATE_ACCOUNT", "FRAUD_CHECK",
            "DEBIT_ACCOUNT"])) ∧
    (amount < 1000 →
      routePayment amount = "v1" ∧
      boundaryWorkflowId amount suffix = "modern-v1-" ++ suffix ∧
      "FRAUD_CHECK" ∉
        (modernPaymentV1Workflow env ⟨f, t, amount, c, d⟩).1.executionSummary.stepsExecuted) := by
  constructor
  · intro hge
    refine ⟨by simp [routePayment, hge], ?_, ?_, ?_⟩
    · simp only [boundaryWorkflowId, routePayment, if_pos hge]
      rfl
    · intro hmem
      rcases v2_steps_cases env ⟨f, t, amount, c, d⟩ with h | h | h | h | h <;>
        rw [h] at hmem ⊢ <;> first | rfl | simp at hmem
    · intro hmem
      rcases pm_steps_cases env ⟨f, t, amount, c, d⟩ with h | h | h | h | h <;>
        rw [h] at hmem ⊢ <;> first | rfl | simp at hmem
  · intro hlt
    refine ⟨by simp [routePayment, not_le.mpr hlt], ?_, ?_⟩
    · simp only [boundaryWorkflowId, routePayment, if_neg (not_le.mpr hlt)]
      rfl
    · rcases v1_steps_cases env ⟨f, t, amount, c, d⟩ with h | h | h | h <;>
        rw [h] <;> decide

/-- C3 witness: concrete accepted requests on each side of the threshold. -/
theorem claim_C3_witness :
    startPaymentAccepted "ACC1" "ACC2" 2000 = true ∧
    startPaymentAccepted "ACC1" "ACC2" 750 = true ∧
    boundaryWorkflowId 2000 "17" = "modern-v2-" ++ "17" ∧
    boundaryWorkflowId 750 "17" = "modern-v1-" ++ "17" := by
  have h2 := claim_C3 "ACC1" "ACC2" "USD" "x" "17" 2000
    ⟨[], [], none, none, none, "PAY_1", none, none, none, none, none,
      fun _ => true, 0⟩ (by decide)
  have h1 := claim_C3 "ACC1" "ACC2" "USD" "x" "17" 750
    ⟨[], [], none, none, none, "PAY_1", none, none, none, none, none,
      fun _ => true, 0⟩ (by decide)
  exact ⟨by decide, by decide, (h2.1 (by decide)).2.1, (h1.2 (by decide)).2.1⟩

/-- C6: audit-sink behavior is irrelevant to a run.  Replacing the audit-sink
acceptance function by an arbitrary one (in particular letting any subset of
the `logAuditEvent` POSTs fail) leaves the entire run output — the
`PaymentResult` and the emitted effects — unchanged, for all three workflow
definitions; and `logAuditEvent` itself never throws: when the sink rejects
the POST it swallows the error and returns the sentinel `AUDIT_FAILED`. -/
theorem claim_C6 (env : Env) (input : PaymentInput) (f : Nat → Bool) :
    modernPaymentV1Workflow { env with auditOk := f } input =
      modernPaymentV1Workflow env input ∧
    modernPaymentV2Workflow { env with auditOk := f } input =
      modernPaymentV2Workflow env input ∧
    modernPaymentV2WorkflowPM { env with auditOk := f } input =
      modernPaymentV2WorkflowPM env input ∧
    (∀ (st : St) (w v s t : String) (d : Nat) (dt : String),
      (logAuditEvent { env with auditOk := fun _ => false } st w v s t d dt).2 =
        "AUDIT_FAILED" ∧
      (logAuditEvent { env with auditOk := fun _ => false } st w v s t d dt).1 =
        pushAudit st w v s t d dt) := by
  cases env
  exact ⟨rfl, rfl, rfl, fun st w v s t d dt => ⟨rfl, rfl⟩⟩

/-! ### Helper lemmas: a failing status update forces a failed v1 result -/

theorem v1RunComplete_updateFail (env : Env) (w : String) (st : St)
    (steps : List String) (pid : String) (e : String)
    (h : env.updateFail = some e) :
    (v1RunComplete env w st steps pid).1.success = false := by
  simp [v1RunComplete, updatePaymentStatus, h, v1Catch]

theorem v1RunCredit_updateFail (env : Env) (input : PaymentInput) (w : String)
    (st : St) (steps : List String) (pid : String) (accounts : List Account)
    (e : String) (h : env.updateFail = some e) :
    (v1RunCredit env input w st steps pid accounts).1.success = false := by
  simp only [v1RunCredit]
  rcases hc : creditAccount env accounts input.toAccount input.amount with er | cr
  · simp [v1Catch]
  · rcases hs : cr.1.success
    · simp [hs, updatePaymentStatus, h, v1Catch]
    · simp only [hs, Bool.not_true, Bool.false_eq_true, if_false]
      exact v1RunComplete_updateFail env w _ _ pid e h

theorem v1RunDebit_updateFail (env : Env) (input : PaymentInput) (w : String)
    (st : St) (steps : List String) (pid : String) (e : String)
    (h : env.updateFail = some e) :
    (v1RunDebit env input w st steps pid).1.success = false := by
  simp only [v1RunDebit]
  rcases hd : debitAccount env env.accounts input.fromAccount input.amount with er | dr
  · simp [v1Catch]
  · rcases hs : dr.1.success
    · simp [hs, updatePaymentStatus, h, v1Catch]
    · simp only [hs, Bool.not_true, Bool.false_eq_true, if_false]
      exact v1RunCredit_updateFail env input w _ _ pid dr.2 e h

theorem v1RunValidate_updateFail (env : Env) (input : PaymentInput) (w : String)
    (st : St) (steps : List String) (pid : String) (e : String)
    (h : env.updateFail = some e) :
    (v1RunValidate env input w st steps pid).1.success = false := by
  simp only [v1RunValidate]
  rcases hv : validateAccount env input.fromAccount input.amount with er | v
  · simp [v1Catch]
  · rcases hs : v.isValid
    · simp [hs, updatePaymentStatus, h, v1Catch]
    · simp only [hs, Bool.not_true, Bool.false_eq_true, if_false]
      exact v1RunDebit_updateFail env input w _ _ pid e h

/-- C7 counterexample: with a concrete, otherwise fully successful run, a
failing `updatePaymentStatus` call changes the run outcome: `success` flips
from `true` to `false` and the error message is the wrapped update failure,
contradicting the claim that the run returns the same `PaymentResult` it
would have returned had the status update succeeded. -/
theorem claim_C7_counterexample :
    (modernPaymentV1Workflow
        ⟨[⟨"1", "ACC1", "CUST1", 5000, "USD", "ACTIVE", "CHECKING",
            "2024-01-01"⟩,
          ⟨"2", "ACC2", "CUST2", 100, "USD", "ACTIVE", "SAVINGS",
            "2024-01-01"⟩], [], none, none, none, "PAY_1", none, none, none,
          none, some "Request failed with status code 500", fun _ => true, 0⟩
        ⟨"ACC1", "ACC2", 750, "USD", "rent"⟩).1.success = false ∧
    (modernPaymentV1Workflow
        ⟨[⟨"1", "ACC1", "CUST1", 5000, "USD", "ACTIVE", "CHECKING",
            "2024-01-01"⟩,
          ⟨"2", "ACC2", "CUST2", 100, "USD", "ACTIVE", "SAVINGS",
            "2024-01-01"⟩], [], none, none, none, "PAY_1", none, none, none,
          none, some "Request failed with status code 500", fun _ => true, 0⟩
        ⟨"ACC1", "ACC2", 750, "USD", "rent"⟩).1.error =
      some "Payment status update failed: Request failed with status code 500" ∧
    (modernPaymentV1Workflow
        ⟨[⟨"1", "ACC1", "CUST1", 5000, "USD", "ACTIVE", "CHECKING",
            "2024-01-01"⟩,
          ⟨"2", "ACC2", "CUST2", 100, "USD", "ACTIVE", "SAVINGS",
            "2024-01-01"⟩], [], none, none, none, "PAY_1", none, none, none,
          none, none, fun _ => true, 0⟩
        ⟨"ACC1", "ACC2", 750, "USD", "rent"⟩).1.success = true := by
  refine ⟨?_, ?_, ?_⟩ <;> rfl

/-- C7 (amended): a failure of the `updatePaymentStatus` call is not
best-effort: the activity throws, the exception reaches the top-level catch,
and every v1 run whose status-update calls fail ends with `success = false`
(in particular an otherwise fully successful run is converted into a failed
result carrying the wrapped update-failure message). -/
theorem claim_C7 (env : Env) (input : PaymentInput) (e : String)
    (h : env.updateFail = some e) :
    (modernPaymentV1Workflow env input).1.success = false := by
  simp only [modernPaymentV1Workflow]
  rcases hc : createPaymentRequest env input.fromAccount input.toAccount
      input.amount input.currency ("modern-v1-" ++ toString env.now)
      (input.description ++ " (Orchestrated v1)") with er | pid
  · simp [v1Catch]
  · exact v1RunValidate_updateFail env input _ _ _ pid e h

/-- C7 witness: the amended theorem applied at a concrete failing update. -/
theorem claim_C7_witness :
    (⟨[⟨"1", "ACC1", "CUST1", 5000, "USD", "ACTIVE", "CHECKING",
        "2024-01-01"⟩], [], none, none, none, "PAY_1", none, none, none, none,
        some "HTTP 500", fun _ => true, 0⟩ : Env).updateFail =
      some "HTTP 500" ∧
    (modernPaymentV1Workflow
        ⟨[⟨"1", "ACC1", "CUST1", 5000, "USD", "ACTIVE", "CHECKING",
            "2024-01-01"⟩], [], none, none, none, "PAY_1", none, none, none,
          none, some "HTTP 500", fun _ => true, 0⟩
        ⟨"ACC1", "ACC2", 750, "USD", "rent"⟩).1.success = false :=
  ⟨rfl, claim_C7 _ _ "HTTP 500" rfl⟩

/-! ### Helper lemmas: fraud-check step outcome in a v2 run -/

theorem v2RunDebit_steps_ne (env : Env) (input : PaymentInput) (w : String)
    (st : St) (steps : List String) (pid : String) :
    (v2RunDebit env input w st steps pid).1.executionSummary.stepsExecuted ≠ steps := by
  rcases v2RunDebit_steps env input w st steps pid with h | h <;> rw [h] <;>
    intro hbad <;> have hl := congrArg List.length hbad <;>
    simp [List.length_append] at hl

theorem v2RunFraud_blocked_iff (env : Env) (input : PaymentInput) (w : String)
    (st : St) (steps : List String) (pid : String)
    (hf : env.fraudGetFail = none) :
    ((v2RunFraud env input w st steps pid).1.executionSummary.stepsExecuted =
        steps ++ ["FRAUD_CHECK"]) ↔
      (∃ fr, performFraudCheck env input.fromAccount input.amount = .ok fr ∧
        fr.isBlocked = true) := by
  rcases hfr : performFraudCheck env input.fromAccount input.amount with er | fr
  · exfalso
    rcases hfl : env.fraudFlags.find?
        (fun flag => flag.accountId == input.fromAccount) with _ | fl <;>
      simp [performFraudCheck, hf, hfl] at hfr
  · simp only [v2RunFraud, hfr]
    rcases hb : fr.isBlocked
    · constructor
      · intro hsteps
        simp only [hb, Bool.false_eq_true, if_false] at hsteps
        exact absurd hsteps (v2RunDebit_steps_ne _ _ _ _ _ _)
      · rintro ⟨fr2, hfr2, hb2⟩
        injection hfr2 with h3
        rw [← h3, hb] at hb2
        exact absurd hb2 (by decide)
    · constructor
      · intro _
        exact ⟨fr, rfl, hb⟩
      · intro _
        simp only [hb, if_true]
        rcases hu : env.updateFail with _ | e <;>
          simp [updatePaymentStatus, hu, v2Catch, v2Summary]

/-- C2: semantics of the fraud check in a v2 run.  First, the
`performFraudCheck` activity computes the risk score as the stored score plus
20 when the amount exceeds 10000 (plus 0 otherwise), blocks exactly when the
stored `isBlocked` flag is set or the adjusted score exceeds 80, and returns
score 10, not blocked, when no stored fraud record matches the account.
Second, a v2 run that reaches the fraud check (creation and validation
succeeded for an ACTIVE, sufficiently funded account) terminates at
FRAUD_CHECK — trace exactly CREATE_PAYMENT_REQUEST, VALIDATE_ACCOUNT,
FRAUD_CHECK — precisely when the stored record blocks it; with no stored
record the run is never blocked there. -/
theorem claim_C2 (env : Env) (n : String) (amt : Int) (input : PaymentInput)
    (hf : env.fraudGetFail = none) (hc : env.createFail = none)
    (hv : env.validateGetFail = none) (a : Account)
    (hfind : env.accounts.find?
      (fun acc => acc.accountNumber == input.fromAccount) = some a)
    (ha : a.status = "ACTIVE") (hbal : input.amount ≤ a.balance) :
    (match env.fraudFlags.find? (fun flag => flag.accountId == n) with
      | none => performFraudCheck env n amt =
          .ok ⟨false, 10, "No fraud history - low risk"⟩
      | some fl => ∃ fr, performFraudCheck env n amt = .ok fr ∧
          fr.riskScore = fl.riskScore + (if amt > 10000 then 20 else 0) ∧
          (fr.isBlocked = true ↔ (fl.isBlocked = true ∨
            fl.riskScore + (if amt > 10000 then 20 else 0) > 80))) ∧
    ((modernPaymentV2Workflow env input).1.executionSummary.stepsExecuted =
        ["CREATE_PAYMENT_REQUEST", "VALIDATE_ACCOUNT", "FRAUD_CHECK"] ↔
      (match env.fraudFlags.find?
          (fun flag => flag.accountId == input.fromAccount) with
        | none => False
        | some fl => fl.isBlocked = true ∨
            fl.riskScore + (if input.amount > 10000 then 20 else 0) > 80)) := by
  constructor
  · rcases hfl : env.fraudFlags.find? (fun flag => flag.accountId == n)
        with _ | fl <;> rw [hfl]
    · simp [performFraudCheck, hf, hfl]
    · refine ⟨⟨fl.isBlocked ||
          decide (fl.riskScore + (if amt > 10000 then 20 else 0) > 80),
          fl.riskScore + (if amt > 10000 then 20 else 0),
          if fl.isBlocked ||
              decide (fl.riskScore + (if amt > 10000 then 20 else 0) > 80)
            then "High risk detected: " ++ fl.reason
            else "Risk assessment passed - Score: " ++
              toString (fl.riskScore + (if amt > 10000 then 20 else 0))⟩,
        ?_, rfl, ?_⟩
      · simp [performFraudCheck, hf, hfl]
      · simp
  · have hval : validateAccount env input.fromAccount input.amount =
        .ok ⟨true, some a, "Account validation successful"⟩ := by
      simp [validateAccount, hv, hfind, ha, not_lt.mpr hbal]
    simp only [modernPaymentV2Workflow, createPaymentRequest, hc]
    simp only [v2RunValidate, hval, Bool.not_true, Bool.false_eq_true, if_false]
    refine Iff.trans (v2RunFraud_blocked_iff env input _ _ _ _ hf) ?_
    rcases hfl : env.fraudFlags.find?
        (fun flag => flag.accountId == input.fromAccount) with _ | fl <;> rw [hfl]
    · simp [performFraudCheck, hf, hfl]
    · simp [performFraudCheck, hf, hfl]

/-- C2 witness: a stored blocked flag stops a concrete v2 run at the fraud
check. -/
theorem claim_C2_witness :
    (modernPaymentV2Workflow
        ⟨[⟨"1", "ACC1", "CUST1", 5000, "USD", "ACTIVE", "CHECKING",
            "2024-01-01"⟩],
          [⟨"f1", "ACC1", "CUST1", 70, true, "HIGH", "known mule",
            "2024-01-01"⟩], none, none, none, "PAY_1", none, none, none, none,
          none, fun _ => true, 0⟩
        ⟨"ACC1", "ACC2", 2000, "USD", "x"⟩).1.executionSummary.stepsExecuted =
      ["CREATE_PAYMENT_REQUEST", "VALIDATE_ACCOUNT", "FRAUD_CHECK"] := by
  have h := claim_C2
    ⟨[⟨"1", "ACC1", "CUST1", 5000, "USD", "ACTIVE", "CHECKING", "2024-01-01"⟩],
      [⟨"f1", "ACC1", "CUST1", 70, true, "HIGH", "known mule", "2024-01-01"⟩],
      none, none, none, "PAY_1", none, none, none, none, none,
      fun _ => true, 0⟩
    "ACC1" 2000 ⟨"ACC1", "ACC2", 2000, "USD", "x"⟩ rfl rfl rfl
    ⟨"1", "ACC1", "CUST1", 5000, "USD", "ACTIVE", "CHECKING", "2024-01-01"⟩
    rfl rfl (by decide)
  refine h.2.mpr ?_
  rw [show (⟨[⟨"1", "ACC1", "CUST1", 5000, "USD", "ACTIVE", "CHECKING",
      "2024-01-01"⟩],
      [⟨"f1", "ACC1", "CUST1", 70, true, "HIGH", "known mule", "2024-01-01"⟩],
      none, none, none, "PAY_1", none, none, none, none, none,
      fun _ => true, 0⟩ : Env).fraudFlags.find?
      (fun flag => flag.accountId == "ACC1") =
      some ⟨"f1", "ACC1", "CUST1", 70, true, "HIGH", "known mule",
        "2024-01-01"⟩ from rfl]
  exact Or.inl rfl

/-- C9: `debitAccount` performs no status or sufficiency check of its own:
whenever its GET and PUT calls succeed and it finds an account (with a
non-empty id), it writes back exactly `balance - amount`, whatever the
status and however large the amount — the written balance can be negative.
The `status = ACTIVE` and `balance ≥ amount` conditions are checked only by
`validateAccount`: a valid verdict implies the found account is ACTIVE with
sufficient balance. -/
theorem claim_C9 :
    (∀ (env : Env) (accounts : List Account) (n : String) (amt : Int)
      (a : Account),
      env.debitGetFail = none → env.debitPutFail = none →
      accounts.find? (fun acc => acc.accountNumber == n) = some a →
      a.id ≠ "" →
      debitAccount env accounts n amt =
        .ok (⟨true, a.balance - amt, "TXN_" ++ toString env.now⟩,
          putAccountBalance accounts a.id (a.balance - amt))) ∧
    (∀ (env : Env) (n : String) (amt : Int) (v : ValidationOutcome),
      validateAccount env n amt = .ok v → v.isValid = true →
      ∃ a, env.accounts.find? (fun acc => acc.accountNumber == n) = some a ∧
        a.status = "ACTIVE" ∧ amt ≤ a.balance ∧ v.account = some a) := by
  constructor
  · intro env accounts n amt a hg hp hfind hid
    simp [debitAccount, hg, hp, hfind, hid]
  · intro env n amt v hval hvalid
    rcases hg : env.validateGetFail with _ | e
    · rcases hfind : env.accounts.find? (fun acc => acc.accountNumber == n)
          with _ | a
      · simp [validateAccount, hg, hfind] at hval
        rw [← hval] at hvalid
        simp at hvalid
      · refine ⟨a, hfind, ?_⟩
        rcases hstat : a.status == "ACTIVE"
        · simp [validateAccount, hg, hfind, bne, hstat] at hval
          rw [← hval] at hvalid
          simp at hvalid
        · have hstat2 : a.status = "ACTIVE" := by
            exact (beq_iff_eq.mp hstat)
          rcases hlt : decide (a.balance < amt)
          · have hle : amt ≤ a.balance := not_lt.mp (of_decide_eq_false hlt)
            simp [validateAccount, hg, hfind, hstat2, not_lt.mpr hle] at hval
            exact ⟨hstat2, hle, by rw [← hval]⟩
          · have hlt2 : a.balance < amt := of_decide_eq_true hlt
            simp [validateAccount, hg, hfind, hstat2, hlt2] at hval
            rw [← hval] at hvalid
            simp at hvalid
    · simp [validateAccount, hg] at hval

/-- C9 witness: a concrete debit of 500 from a 100-balance account writes
back the negative balance -400. -/
theorem claim_C9_witness :
    debitAccount
        ⟨[⟨"1", "ACC1", "CUST1", 100, "USD", "FROZEN", "CHECKING",
            "2024-01-01"⟩], [], none, none, none, "PAY_1", none, none, none,
          none, none, fun _ => true, 0⟩
        [⟨"1", "ACC1", "CUST1", 100, "USD", "FROZEN", "CHECKING",
          "2024-01-01"⟩] "ACC1" 500 =
      .ok (⟨true, -400, "TXN_0"⟩,
        [⟨"1", "ACC1", "CUST1", -400, "USD", "FROZEN", "CHECKING",
          "2024-01-01"⟩]) ∧ (-400 : Int) < 0 := by
  constructor
  · have h := claim_C9.1
      ⟨[⟨"1", "ACC1", "CUST1", 100, "USD", "FROZEN", "CHECKING",
          "2024-01-01"⟩], [], none, none, none, "PAY_1", none, none, none,
        none, none, fun _ => true, 0⟩
      [⟨"1", "ACC1", "CUST1", 100, "USD", "FROZEN", "CHECKING", "2024-01-01"⟩]
      "ACC1" 500
      ⟨"1", "ACC1", "CUST1", 100, "USD", "FROZEN", "CHECKING", "2024-01-01"⟩
      rfl rfl rfl (by decide)
    rw [h]
    rfl
  · decide

/-! ### Helper lemmas: debit and credit never return a failed result -/

theorem debitAccount_ok_success (env : Env) (accounts : List Account)
    (n : String) (amt : Int) (r : LedgerOutcome × List Account)
    (h : debitAccount env accounts n amt = .ok r) : r.1.success = true := by
  unfold debitAccount at h
  repeat' split at h
  all_goals try simp only [] at h
  all_goals first
    | (injection h with h2; subst h2; rfl)
    | injection h

theorem creditAccount_ok_success (env : Env) (accounts : List Account)
    (n : String) (amt : Int) (r : LedgerOutcome × List Account)
    (h : creditAccount env accounts n amt = .ok r) : r.1.success = true := by
  unfold creditAccount at h
  repeat' split at h
  all_goals try simp only [] at h
  all_goals first
    | (injection h with h2; subst h2; rfl)
    | injection h

theorem mem_pushAudit (st : St) (w v s t : String) (d : Nat) (dt : String)
    (e : Effect) (he : e ∈ (pushAudit st w v s t d dt).effects) :
    e ∈ st.effects ∨ e = .audit w v s t d dt := by
  simpa [pushAudit] using he

theorem statusUpdate_benign (p s : String) (dt : Option String) :
    benignEffect (.statusUpdate p s dt) := by
  simp [benignEffect, effectStepStatus]

theorem audit_benign_iff (w v s t : String) (d : Nat) (dt : String) :
    benignEffect (.audit w v s t d dt) ↔
      (¬(s = "DEBIT_ACCOUNT" ∧ t = "FAILED") ∧
        ¬(s = "CREDIT_ACCOUNT" ∧ t = "FAILED")) := by
  simp [benignEffect, effectStepStatus]

theorem v1Catch_benign (env : Env) (st : St) (w : String) (steps : List String)
    (msg : String) :
    ∀ e ∈ (v1Catch env st w steps msg).2, e ∈ st.effects ∨ benignEffect e := by
  intro e he
  simp only [v1Catch, logAuditEvent, pushAudit, List.mem_append,
    List.mem_singleton] at he
  rcases he with h | rfl
  · exact Or.inl h
  · exact Or.inr ((audit_benign_iff _ _ _ _ _ _).mpr (by decide))

theorem v1RunComplete_benign (env : Env) (w : String) (st : St)
    (steps : List String) (pid : String) :
    ∀ e ∈ (v1RunComplete env w st steps pid).2,
      e ∈ st.effects ∨ benignEffect e := by
  intro e he
  rcases hu : env.updateFail with _ | x
  · simp only [v1RunComplete, updatePaymentStatus, hu, logAuditEvent, pushAudit,
      List.mem_append, List.mem_singleton] at he
    rcases he with (h | rfl) | rfl
    · exact Or.inl h
    · exact Or.inr (statusUpdate_benign _ _ _)
    · exact Or.inr ((audit_benign_iff _ _ _ _ _ _).mpr (by decide))
  · simp only [v1RunComplete, updatePaymentStatus, hu] at he
    exact v1Catch_benign _ _ _ _ _ e he

theorem v1RunCredit_benign (env : Env) (input : PaymentInput) (w : String)
    (st : St) (steps : List String) (pid : String) (accounts : List Account) :
    ∀ e ∈ (v1RunCredit env input w st steps pid accounts).2,
      e ∈ st.effects ∨ benignEffect e := by
  intro e he
  rcases hcr : creditAccount env accounts input.toAccount input.amount with er | cr
  · simp only [v1RunCredit, hcr] at he
    rcases v1Catch_benign _ _ _ _ _ e he with h | h
    · simp only [logAuditEvent, pushAudit, List.mem_append,
        List.mem_singleton] at h
      rcases h with h | rfl
      · exact Or.inl h
      · exact Or.inr ((audit_benign_iff _ _ _ _ _ _).mpr (by decide))
    · exact Or.inr h
  · have hs := creditAccount_ok_success _ _ _ _ _ hcr
    simp only [v1RunCredit, hcr, hs, Bool.not_true, Bool.false_eq_true,
      if_false] at he
    rcases v1RunComplete_benign _ _ _ _ _ e he with h | h
    · simp only [logAuditEvent, pushAudit, List.mem_append,
        List.mem_singleton] at h
      rcases h with (h | rfl) | rfl
      · exact Or.inl h
      · exact Or.inr ((audit_benign_iff _ _ _ _ _ _).mpr (by decide))
      · exact Or.inr ((audit_benign_iff _ _ _ _ _ _).mpr (by decide))
    · exact Or.inr h

theorem v1RunDebit_benign (env : Env) (input : PaymentInput) (w : String)
    (st : St) (steps : List String) (pid : String) :
    ∀ e ∈ (v1RunDebit env input w st steps pid).2,
      e ∈ st.effects ∨ benignEffect e := by
  intro e he
  rcases hd : debitAccount env env.accounts input.fromAccount input.amount with er | dr
  · simp only [v1RunDebit, hd] at he
    rcases v1Catch_benign _ _ _ _ _ e he with h | h
    · simp only [logAuditEvent, pushAudit, List.mem_append,
        List.mem_singleton] at h
      rcases h with h | rfl
      · exact Or.inl h
      · exact Or.inr ((audit_benign_iff _ _ _ _ _ _).mpr (by decide))
    · exact Or.inr h
  · have hs := debitAccount_ok_success _ _ _ _ _ hd
    simp only [v1RunDebit, hd, hs, Bool.not_true, Bool.false_eq_true,
      if_false] at he
    rcases v1RunCredit_benign _ _ _ _ _ _ _ e he with h | h
    · simp only [logAuditEvent, pushAudit, List.mem_append,
        List.mem_singleton] at h
      rcases h with (h | rfl) | rfl
      · exact Or.inl h
      · exact Or.inr ((audit_benign_iff _ _ _ _ _ _).mpr (by decide))
      · exact Or.inr ((audit_benign_iff _ _ _ _ _ _).mpr (by decide))
    · exact Or.inr h

theorem v1RunValidate_benign (env : Env) (input : PaymentInput) (w : String)
    (st : St) (steps : List String) (pid : String) :
    ∀ e ∈ (v1RunValidate env input w st steps pid).2,
      e ∈ st.effects ∨ benignEffect e := by
  intro e he
  rcases hv : validateAccount env input.fromAccount input.amount with er | v
  · simp only [v1RunValidate, hv] at he
    rcases v1Catch_benign _ _ _ _ _ e he with h | h
    · simp only [logAuditEvent, pushAudit, List.mem_append,
        List.mem_singleton] at h
      rcases h with h | rfl
      · exact Or.inl h
      · exact Or.inr ((audit_benign_iff _ _ _ _ _ _).mpr (by decide))
    · exact Or.inr h
  · rcases hvb : v.isValid
    · rcases hu : env.updateFail with _ | x
      · simp only [v1RunValidate, hv, hvb, Bool.not_false, if_true,
          updatePaymentStatus, hu, logAuditEvent, pushAudit, List.mem_append,
          List.mem_singleton] at he
        rcases he with ((h | rfl) | rfl) | rfl
        · exact Or.inl h
        · exact Or.inr ((audit_benign_iff _ _ _ _ _ _).mpr (by decide))
        · exact Or.inr ((audit_benign_iff _ _ _ _ _ _).mpr (by decide))
        · exact Or.inr (statusUpdate_benign _ _ _)
      · simp only [v1RunValidate, hv, hvb, Bool.not_false, if_true,
          updatePaymentStatus, hu] at he
        rcases v1Catch_benign _ _ _ _ _ e he with h | h
        · simp only [logAuditEvent, pushAudit, List.mem_append,
            List.mem_singleton] at h
          rcases h with (h | rfl) | rfl
          · exact Or.inl h
          · exact Or.inr ((audit_benign_iff _ _ _ _ _ _).mpr (by decide))
          · exact Or.inr ((audit_benign_iff _ _ _ _ _ _).mpr (by decide))
        · exact Or.inr h
    · simp only [v1RunValidate, hv, hvb, Bool.not_true, Bool.false_eq_true,
        if_false] at he
      rcases v1RunDebit_benign _ _ _ _ _ _ e he with h | h
      · simp only [logAuditEvent, pushAudit, List.mem_append,
          List.mem_singleton] at h
        rcases h with (h | rfl) | rfl
        · exact Or.inl h
        · exact Or.inr ((audit_benign_iff _ _ _ _ _ _).mpr (by decide))
        · exact Or.inr ((audit_benign_iff _ _ _ _ _ _).mpr (by decide))
      · exact Or.inr h

theorem v1_effects_benign (env : Env) (input : PaymentInput) :
    ∀ e ∈ (modernPaymentV1Workflow env input).2, benignEffect e := by
  intro e he
  rcases hc : createPaymentRequest env input.fromAccount input.toAccount
      input.amount input.currency ("modern-v1-" ++ toString env.now)
      (input.description ++ " (Orchestrated v1)") with er | pid
  · simp only [modernPaymentV1Workflow, hc] at he
    rcases v1Catch_benign _ _ _ _ _ e he with h | h
    · simp only [logAuditEvent, pushAudit, List.mem_append, List.mem_singleton,
        List.not_mem_nil, false_or] at h
      rw [h]
      exact (audit_benign_iff _ _ _ _ _ _).mpr (by decide)
    · exact h
  · simp only [modernPaymentV1Workflow, hc] at he
    rcases v1RunValidate_benign _ _ _ _ _ _ e he with h | h
    · simp only [logAuditEvent, pushAudit, List.mem_append, List.mem_singleton,
        List.not_mem_nil, false_or] at h
      rcases h with rfl | rfl
      · exact (audit_benign_iff _ _ _ _ _ _).mpr (by decide)
      · exact (audit_benign_iff _ _ _ _ _ _).mpr (by decide)
    · exact h

theorem v2Catch_benign (env : Env) (st : St) (w : String) (steps : List String)
    (msg : String) :
    ∀ e ∈ (v2Catch env st w steps msg).2, e ∈ st.effects ∨ benignEffect e := by
  intro e he
  simp only [v2Catch, logAuditEvent, pushAudit, List.mem_append,
    List.mem_singleton] at he
  rcases he with h | rfl
  · exact Or.inl h
  · exact Or.inr ((audit_benign_iff _ _ _ _ _ _).mpr (by decide))

theorem v2RunComplete_benign (env : Env) (w : String) (st : St)
    (steps : List String) (pid : String) :
    ∀ e ∈ (v2RunComplete env w st steps pid).2,
      e ∈ st.effects ∨ benignEffect e := by
  intro e he
  rcases hu : env.updateFail with _ | x
  · simp only [v2RunComplete, updatePaymentStatus, hu, logAuditEvent, pushAudit,
      List.mem_append, List.mem_singleton] at he
    rcases he with (h | rfl) | rfl
    · exact Or.inl h
    · exact Or.inr (statusUpdate_benign _ _ _)
    · exact Or.inr ((audit_benign_iff _ _ _ _ _ _).mpr (by decide))
  · simp only [v2RunComplete, updatePaymentStatus, hu] at he
    exact v2Catch_benign _ _ _ _ _ e he

theorem v2RunCredit_benign (env : Env) (input : PaymentInput) (w : String)
    (st : St) (steps : List String) (pid : String) (accounts : List Account) :
    ∀ e ∈ (v2RunCredit env input w st steps pid accounts).2,
      e ∈ st.effects ∨ benignEffect e := by
  intro e he
  rcases hcr : creditAccount env accounts input.toAccount input.amount with er | cr
  · simp only [v2RunCredit, hcr] at he
    rcases v2Catch_benign _ _ _ _ _ e he with h | h
    · simp only [logAuditEvent, pushAudit, List.mem_append,
        List.mem_singleton] at h
      rcases h with h | rfl
      · exact Or.inl h
      · exact Or.inr ((audit_benign_iff _ _ _ _ _ _).mpr (by decide))
    · exact Or.inr h
  · have hs := creditAccount_ok_success _ _ _ _ _ hcr
    simp only [v2RunCredit, hcr, hs, Bool.not_true, Bool.false_eq_true,
      if_false] at he
    rcases v2RunComplete_benign _ _ _ _ _ e he with h | h
    · simp only [logAuditEvent, pushAudit, List.mem_append,
        List.mem_singleton] at h
      rcases h with (h | rfl) | rfl
      · exact Or.inl h
      · exact Or.inr ((audit_benign_iff _ _ _ _ _ _).mpr (by decide))
      · exact Or.inr ((audit_benign_iff _ _ _ _ _ _).mpr (by decide))
    · exact Or.inr h

theorem v2RunDebit_benign (env : Env) (input : PaymentInput) (w : String)
    (st : St) (steps : List String) (pid : String) :
    ∀ e ∈ (v2RunDebit env input w st steps pid).2,
      e ∈ st.effects ∨ benignEffect e := by
  intro e he
  rcases hd : debitAccount env env.accounts input.fromAccount input.amount with er | dr
  · simp only [v2RunDebit, hd] at he
    rcases v2Catch_benign _ _ _ _ _ e he with h | h
    · simp only [logAuditEvent, pushAudit, List.mem_append,
        List.mem_singleton] at h
      rcases h with h | rfl
      · exact Or.inl h
      · exact Or.inr ((audit_benign_iff _ _ _ _ _ _).mpr (by decide))
    · exact Or.inr h
  · have hs := debitAccount_ok_success _ _ _ _ _ hd
    simp only [v2RunDebit, hd, hs, Bool.not_true, Bool.false_eq_true,
      if_false] at he
    rcases v2RunCredit_benign _ _ _ _ _ _ _ e he with h | h
    · simp only [logAuditEvent, pushAudit, List.mem_append,
        List.mem_singleton] at h
      rcases h with (h | rfl) | rfl
      · exact Or.inl h
      · exact Or.inr ((audit_benign_iff _ _ _ _ _ _).mpr (by decide))
      · exact Or.inr ((audit_benign_iff _ _ _ _ _ _).mpr (by decide))
    · exact Or.inr h

theorem v2RunFraud_benign (env : Env) (input : PaymentInput) (w : String)
    (st : St) (steps : List String) (pid : String) :
    ∀ e ∈ (v2RunFraud env input w st steps pid).2,
      e ∈ st.effects ∨ benignEffect e := by
  intro e he
  rcases hf : performFraudCheck env input.fromAccount input.amount with er | fr
  · simp only [v2RunFraud, hf] at he
    rcases v2Catch_benign _ _ _ _ _ e he with h | h
    · simp only [logAuditEvent, pushAudit, List.mem_append,
        List.mem_singleton] at h
      rcases h with h | rfl
      · exact Or.inl h
      · exact Or.inr ((audit_benign_iff _ _ _ _ _ _).mpr (by decide))
    · exact Or.inr h
  · rcases hb : fr.isBlocked
    · simp only [v2RunFraud, hf, hb, Bool.false_eq_true, if_false] at he
      rcases v2RunDebit_benign _ _ _ _ _ _ e he with h | h
      · simp only [logAuditEvent, pushAudit, List.mem_append,
          List.mem_singleton] at h
        rcases h with (h | rfl) | rfl
        · exact Or.inl h
        · exact Or.inr ((audit_benign_iff _ _ _ _ _ _).mpr (by decide))
        · exact Or.inr ((audit_benign_iff _ _ _ _ _ _).mpr (by decide))
      · exact Or.inr h
    · rcases hu : env.updateFail with _ | x
      · simp only [v2RunFraud, hf, hb, if_true, updatePaymentStatus, hu,
          logAuditEvent, pushAudit, List.mem_append, List.mem_singleton] at he
        rcases he with ((h | rfl) | rfl) | rfl
        · exact Or.inl h
        · exact Or.inr ((audit_benign_iff _ _ _ _ _ _).mpr (by decide))
        · exact Or.inr ((audit_benign_iff _ _ _ _ _ _).mpr (by decide))
        · exact Or.inr (statusUpdate_benign _ _ _)
      · simp only [v2RunFraud, hf, hb, if_true, updatePaymentStatus, hu] at he
        rcases v2Catch_benign _ _ _ _ _ e he with h | h
        · simp only [logAuditEvent, pushAudit, List.mem_append,
            List.mem_singleton] at h
          rcases h with (h | rfl) | rfl
          · exact Or.inl h
          · exact Or.inr ((audit_benign_iff _ _ _ _ _ _).mpr (by decide))
          · exact Or.inr ((audit_benign_iff _ _ _ _ _ _).mpr (by decide))
        · exact Or.inr h

theorem v2RunValidate_benign (env : Env) (input : PaymentInput) (w : String)
    (st : St) (steps : List String) (pid : String) :
    ∀ e ∈ (v2RunValidate env input w st steps pid).2,
      e ∈ st.effects ∨ benignEffect e := by
  intro e he
  rcases hv : validateAccount env input.fromAccount input.amount with er | v
  · simp only [v2RunValidate, hv] at he
    rcases v2Catch_benign _ _ _ _ _ e he with h | h
    · simp only [logAuditEvent, pushAudit, List.mem_append,
        List.mem_singleton] at h
      rcases h with h | rfl
      · exact Or.inl h
      · exact Or.inr ((audit_benign_iff _ _ _ _ _ _).mpr (by decide))
    · exact Or.inr h
  · rcases hvb : v.isValid
    · rcases hu : env.updateFail with _ | x
      · simp only [v2RunValidate, hv, hvb, Bool.not_false, if_true,
          updatePaymentStatus, hu, logAuditEvent, pushAudit, List.mem_append,
          List.mem_singleton] at he
        rcases he with ((h | rfl) | rfl) | rfl
        · exact Or.inl h
        · exact Or.inr ((audit_benign_iff _ _ _ _ _ _).mpr (by decide))
        · exact Or.inr ((audit_benign_iff _ _ _ _ _ _).mpr (by decide))
        · exact Or.inr (statusUpdate_benign _ _ _)
      · simp only [v2RunValidate, hv, hvb, Bool.not_false, if_true,
          updatePaymentStatus, hu] at he
        rcases v2Catch_benign _ _ _ _ _ e he with h | h
        · simp only [logAuditEvent, pushAudit, List.mem_append,
            List.mem_singleton] at h
          rcases h with (h | rfl) | rfl
          · exact Or.inl h
          · exact Or.inr ((audit_benign_iff _ _ _ _ _ _).mpr (by decide))
          · exact Or.inr ((audit_benign_iff _ _ _ _ _ _).mpr (by decide))
        · exact Or.inr h
    · simp only [v2RunValidate, hv, hvb, Bool.not_true, Bool.false_eq_true,
        if_false] at he
      rcases v2RunFraud_benign _ _ _ _ _ _ e he with h | h
      · simp only [logAuditEvent, pushAudit, List.mem_append,
          List.mem_singleton] at h
        rcases h with (h | rfl) | rfl
        · exact Or.inl h
        · exact Or.inr ((audit_benign_iff _ _ _ _ _ _).mpr (by decide))
        · exact Or.inr ((audit_benign_iff _ _ _ _ _ _).mpr (by decide))
      · exact Or.inr h

theorem v2_effects_benign (env : Env) (input : PaymentInput) :
    ∀ e ∈ (modernPaymentV2Workflow env input).2, benignEffect e := by
  intro e he
  rcases hc : createPaymentRequest env input.fromAccount input.toAccount
      input.amount input.currency ("modern-v2-" ++ toString env.now)
      (input.description ++ " (v2 - With Fraud Check)") with er | pid
  · simp only [modernPaymentV2Workflow, hc] at he
    rcases v2Catch_benign _ _ _ _ _ e he with h | h
    · simp only [logAuditEvent, pushAudit, List.mem_append, List.mem_singleton,
        List.not_mem_nil, false_or] at h
      rw [h]
      exact (audit_benign_iff _ _ _ _ _ _).mpr (by decide)
    · exact h
  · simp only [modernPaymentV2Workflow, hc] at he
    rcases v2RunValidate_benign _ _ _ _ _ _ e he with h | h
    · simp only [logAuditEvent, pushAudit, List.mem_append, List.mem_singleton,
        List.not_mem_nil, false_or] at h
      rcases h with rfl | rfl
      · exact (audit_benign_iff _ _ _ _ _ _).mpr (by decide)
      · exact (audit_benign_iff _ _ _ _ _ _).mpr (by decide)
    · exact h

/-- C8: `debitAccount` and `creditAccount` never return a result with
`success = false` — every non-throwing return has `success = true` — so the
explicit debit-failed / credit-failed branches of the workflow bodies are
unreachable: no run of v1 or v2 ever emits their distinguishing
DEBIT_ACCOUNT/FAILED or CREDIT_ACCOUNT/FAILED audit events.  A gateway
failure at the debit step instead surfaces through the top-level catch, with
the thrown message (`Account debit failed: ...`) returned as
`PaymentResult.error`. -/
theorem claim_C8 :
    (∀ (env : Env) (accounts : List Account) (n : String) (amt : Int)
      (r : LedgerOutcome × List Account),
      debitAccount env accounts n amt = .ok r → r.1.success = true) ∧
    (∀ (env : Env) (accounts : List Account) (n : String) (amt : Int)
      (r : LedgerOutcome × List Account),
      creditAccount env accounts n amt = .ok r → r.1.success = true) ∧
    (∀ (env : Env) (input : PaymentInput),
      ∀ e ∈ (modernPaymentV1Workflow env input).2, benignEffect e) ∧
    (∀ (env : Env) (input : PaymentInput),
      ∀ e ∈ (modernPaymentV2Workflow env input).2, benignEffect e) ∧
    (∀ (env : Env) (input : PaymentInput) (a : Account) (e : String),
      env.createFail = none → env.validateGetFail = none →
      env.accounts.find?
        (fun acc => acc.accountNumber == input.fromAccount) = some a →
      a.status = "ACTIVE" → input.amount ≤ a.balance →
      env.debitGetFail = some e →
      (modernPaymentV1Workflow env input).1.success = false ∧
      (modernPaymentV1Workflow env input).1.error =
        some ("Account debit failed: " ++ e)) := by
  refine ⟨debitAccount_ok_success, creditAccount_ok_success,
    v1_effects_benign, v2_effects_benign, ?_⟩
  intro env input a e hc hv hfind hstat hbal hdg
  have hval : validateAccount env input.fromAccount input.amount =
      .ok ⟨true, some a, "Account validation successful"⟩ := by
    simp [validateAccount, hv, hfind, hstat, not_lt.mpr hbal]
  have hderr : debitAccount env env.accounts input.fromAccount input.amount =
      .error ("Account debit failed: " ++ e) := by
    simp [debitAccount, hdg]
  simp only [modernPaymentV1Workflow, createPaymentRequest, hc]
  simp only [v1RunValidate, hval, Bool.not_true, Bool.false_eq_true, if_false]
  simp only [v1RunDebit, hderr]
  simp [v1Catch]

/-- C8 witness: a concrete gateway failure at the debit step. -/
theorem claim_C8_witness :
    (modernPaymentV1Workflow
        ⟨[⟨"1", "ACC1", "CUST1", 5000, "USD", "ACTIVE", "CHECKING",
            "2024-01-01"⟩], [], none, none, none, "PAY_1",
          some "connect ECONNREFUSED", none, none, none, none,
          fun _ => true, 0⟩
        ⟨"ACC1", "ACC2", 750, "USD", "rent"⟩).1.success = false ∧
    (modernPaymentV1Workflow
        ⟨[⟨"1", "ACC1", "CUST1", 5000, "USD", "ACTIVE", "CHECKING",
            "2024-01-01"⟩], [], none, none, none, "PAY_1",
          some "connect ECONNREFUSED", none, none, none, none,
          fun _ => true, 0⟩
        ⟨"ACC1", "ACC2", 750, "USD", "rent"⟩).1.error =
      some ("Account debit failed: " ++ "connect ECONNREFUSED") :=
  claim_C8.2.2.2.2
    ⟨[⟨"1", "ACC1", "CUST1", 5000, "USD", "ACTIVE", "CHECKING", "2024-01-01"⟩],
      [], none, none, none, "PAY_1", some "connect ECONNREFUSED", none, none,
      none, none, fun _ => true, 0⟩
    ⟨"ACC1", "ACC2", 750, "USD", "rent"⟩
    ⟨"1", "ACC1", "CUST1", 5000, "USD", "ACTIVE", "CHECKING", "2024-01-01"⟩
    "connect ECONNREFUSED" rfl rfl rfl rfl (by decide) rfl

/-- C4 counterexample: in a concrete run whose DEBIT_ACCOUNT gateway call
fails, the run terminates with `success = false` but emits no payment-status
update at all — contradicting the claim that every step failure issues a
payment-status update setting the record to FAILED. -/
theorem claim_C4_counterexample :
    (modernPaymentV1Workflow
        ⟨[⟨"1", "ACC1", "CUST1", 5000, "USD", "ACTIVE", "CHECKING",
            "2024-01-01"⟩], [], none, none, none, "PAY_1",
          some "connect ECONNREFUSED", none, none, none, none,
          fun _ => true, 0⟩
        ⟨"ACC1", "ACC2", 750, "USD", "rent"⟩).1.success = false ∧
    ((modernPaymentV1Workflow
        ⟨[⟨"1", "ACC1", "CUST1", 5000, "USD", "ACTIVE", "CHECKING",
            "2024-01-01"⟩], [], none, none, none, "PAY_1",
          some "connect ECONNREFUSED", none, none, none, none,
          fun _ => true, 0⟩
        ⟨"ACC1", "ACC2", 750, "USD", "rent"⟩).2.all
      (fun e => !isStatusUpdateEffect e)) = true :=
  ⟨rfl, rfl⟩

/-- C4 (amended): the failure contract differs between the explicit business
branches and thrown gateway failures.  (a) When validation fails (and the
status update itself succeeds), the run emits the VALIDATE_ACCOUNT/FAILED
audit event, issues the payment-status update to FAILED, and returns
`success = false` with the steps entered so far.  (b) When the fraud check of
a v2 run blocks the payment (and the status update itself succeeds), the run
emits the FRAUD_CHECK/BLOCKED audit event, issues the payment-status update
to BLOCKED_FRAUD, and returns `success = false` with trace
CREATE_PAYMENT_REQUEST, VALIDATE_ACCOUNT, FRAUD_CHECK.  (c) When the
DEBIT_ACCOUNT gateway call throws, the run emits the PAYMENT_FAILED/FAILED
audit event and returns `success = false` with steps CREATE_PAYMENT_REQUEST,
VALIDATE_ACCOUNT, DEBIT_ACCOUNT — but issues no payment-status update.
(d) The same holds when the CREDIT_ACCOUNT gateway call throws after a
successful debit: PAYMENT_FAILED/FAILED audit event, `success = false`,
steps CREATE_PAYMENT_REQUEST, VALIDATE_ACCOUNT, DEBIT_ACCOUNT,
CREDIT_ACCOUNT, and no payment-status update. -/
theorem claim_C4 :
    (∀ (env : Env) (input : PaymentInput) (v : ValidationOutcome),
      env.createFail = none → env.updateFail = none →
      validateAccount env input.fromAccount input.amount = .ok v →
      v.isValid = false →
      (modernPaymentV1Workflow env input).1.success = false ∧
      (modernPaymentV1Workflow env input).1.error = some v.reason ∧
      (modernPaymentV1Workflow env input).1.executionSummary.stepsExecuted =
        ["CREATE_PAYMENT_REQUEST", "VALIDATE_ACCOUNT"] ∧
      Effect.audit ("modern-v1-" ++ toString env.now) "v1" "VALIDATE_ACCOUNT"
          "FAILED" 0
          ("Validation failed: " ++ v.reason ++
            " | Temporal automatically handles failure") ∈
        (modernPaymentV1Workflow env input).2 ∧
      Effect.statusUpdate env.createdPaymentId "FAILED" (some v.reason) ∈
        (modernPaymentV1Workflow env input).2) ∧
    (∀ (env : Env) (input : PaymentInput) (a : Account) (fr : FraudOutcome),
      env.createFail = none → env.validateGetFail = none →
      env.accounts.find?
        (fun acc => acc.accountNumber == input.fromAccount) = some a →
      a.status = "ACTIVE" → input.amount ≤ a.balance →
      env.updateFail = none →
      performFraudCheck env input.fromAccount input.amount = .ok fr →
      fr.isBlocked = true →
      (modernPaymentV2Workflow env input).1.success = false ∧
      (modernPaymentV2Workflow env input).1.error =
        some ("Fraud check failed: " ++ fr.reason) ∧
      (modernPaymentV2Workflow env input).1.executionSummary.stepsExecuted =
        ["CREATE_PAYMENT_REQUEST", "VALIDATE_ACCOUNT", "FRAUD_CHECK"] ∧
      Effect.audit ("modern-v2-" ++ toString env.now) "v2" "FRAUD_CHECK"
          "BLOCKED" 0
          ("🚨 FRAUD DETECTED: " ++ fr.reason ++ " | Risk Score: " ++
            toString fr.riskScore) ∈
        (modernPaymentV2Workflow env input).2 ∧
      Effect.statusUpdate env.createdPaymentId "BLOCKED_FRAUD"
          (some ("Fraud detected: " ++ fr.reason)) ∈
        (modernPaymentV2Workflow env input).2) ∧
    (∀ (env : Env) (input : PaymentInput) (a : Account) (e : String),
      env.createFail = none → env.validateGetFail = none →
      env.accounts.find?
        (fun acc => acc.accountNumber == input.fromAccount) = some a →
      a.status = "ACTIVE" → input.amount ≤ a.balance →
      env.debitGetFail = some e →
      (modernPaymentV1Workflow env input).1.success = false ∧
      (modernPaymentV1Workflow env input).1.error =
        some ("Account debit failed: " ++ e) ∧
      (modernPaymentV1Workflow env input).1.executionSummary.stepsExecuted =
        ["CREATE_PAYMENT_REQUEST", "VALIDATE_ACCOUNT", "DEBIT_ACCOUNT"] ∧
      Effect.audit ("modern-v1-" ++ toString env.now) "v1" "PAYMENT_FAILED"
          "FAILED" 0
          ("Payment workflow failed: " ++ ("Account debit failed: " ++ e) ++
            " | Temporal provides detailed error context") ∈
        (modernPaymentV1Workflow env input).2 ∧
      (∀ ef ∈ (modernPaymentV1Workflow env input).2,
        isStatusUpdateEffect ef = false)) ∧
    (∀ (env : Env) (input : PaymentInput) (a : Account) (e : String),
      env.createFail = none → env.validateGetFail = none →
      env.accounts.find?
        (fun acc => acc.accountNumber == input.fromAccount) = some a →
      a.status = "ACTIVE" → input.amount ≤ a.balance → a.id ≠ "" →
      env.debitGetFail = none → env.debitPutFail = none →
      env.creditGetFail = some e →
      (modernPaymentV1Workflow env input).1.success = false ∧
      (modernPaymentV1Workflow env input).1.error =
        some ("Account credit failed: " ++ e) ∧
      (modernPaymentV1Workflow env input).1.executionSummary.stepsExecuted =
        ["CREATE_PAYMENT_REQUEST", "VALIDATE_ACCOUNT", "DEBIT_ACCOUNT",
          "CREDIT_ACCOUNT"] ∧
      Effect.audit ("modern-v1-" ++ toString env.now) "v1" "PAYMENT_FAILED"
          "FAILED" 0
          ("Payment workflow failed: " ++ ("Account credit failed: " ++ e) ++
            " | Temporal provides detailed error context") ∈
        (modernPaymentV1Workflow env input).2 ∧
      (∀ ef ∈ (modernPaymentV1Workflow env input).2,
        isStatusUpdateEffect ef = false)) := by
  refine ⟨?_, ?_, ?_, ?_⟩
  · intro env input v hc hu hval hinvalid
    simp only [modernPaymentV1Workflow, createPaymentRequest, hc]
    simp only [v1RunValidate, hval, hinvalid, Bool.not_false, if_true,
      updatePaymentStatus, hu, logAuditEvent, pushAudit, v1Summary]
    simp
  · intro env input a fr hc hv hfind hstat hbal hu hfr hb
    have hval : validateAccount env input.fromAccount input.amount =
        .ok ⟨true, some a, "Account validation successful"⟩ := by
      simp [validateAccount, hv, hfind, hstat, not_lt.mpr hbal]
    simp only [modernPaymentV2Workflow, createPaymentRequest, hc]
    simp only [v2RunValidate, hval, Bool.not_true, Bool.false_eq_true, if_false]
    simp only [v2RunFraud, hfr, hb, if_true, updatePaymentStatus, hu,
      logAuditEvent, pushAudit, v2Summary]
    simp
  · intro env input a e hc hv hfind hstat hbal hdg
    have hval : validateAccount env input.fromAccount input.amount =
        .ok ⟨true, some a, "Account validation successful"⟩ := by
      simp [validateAccount, hv, hfind, hstat, not_lt.mpr hbal]
    have hderr : debitAccount env env.accounts input.fromAccount input.amount =
        .error ("Account debit failed: " ++ e) := by
      simp [debitAccount, hdg]
    simp only [modernPaymentV1Workflow, createPaymentRequest, hc]
    simp only [v1RunValidate, hval, Bool.not_true, Bool.false_eq_true, if_false]
    simp only [v1RunDebit, hderr]
    simp only [v1Catch, v1Summary, logAuditEvent, pushAudit]
    refine ⟨by simp, by simp, by simp, by simp, ?_⟩
    · intro ef hef
      simp only [List.nil_append, List.cons_append, List.mem_cons,
        List.not_mem_nil, or_false] at hef
      rcases hef with rfl | rfl | rfl | rfl | rfl | rfl <;> rfl
  · intro env input a e hc hv hfind hstat hbal hid hdg0 hdp0 hcg
    have hval : validateAccount env input.fromAccount input.amount =
        .ok ⟨true, some a, "Account validation successful"⟩ := by
      simp [validateAccount, hv, hfind, hstat, not_lt.mpr hbal]
    have hdeb : debitAccount env env.accounts input.fromAccount input.amount =
        .ok (⟨true, a.balance - input.amount, "TXN_" ++ toString env.now⟩,
          putAccountBalance env.accounts a.id (a.balance - input.amount)) := by
      simp [debitAccount, hdg0, hdp0, hfind, hid]
    have hcerr : creditAccount env
        (putAccountBalance env.accounts a.id (a.balance - input.amount))
        input.toAccount input.amount =
        .error ("Account credit failed: " ++ e) := by
      simp [creditAccount, hcg]
    simp only [modernPaymentV1Workflow, createPaymentRequest, hc]
    simp only [v1RunValidate, hval, Bool.not_true, Bool.false_eq_true, if_false]
    simp only [v1RunDebit, hdeb, Bool.not_true, Bool.false_eq_true, if_false]
    simp only [v1RunCredit, hcerr]
    simp only [v1Catch, v1Summary, logAuditEvent, pushAudit]
    refine ⟨by simp, by simp, by simp, by simp, ?_⟩
    · intro ef hef
      simp only [List.nil_append, List.cons_append, List.mem_cons,
        List.not_mem_nil, or_false] at hef
      rcases hef with rfl | rfl | rfl | rfl | rfl | rfl | rfl | rfl <;> rfl

/-- C4 witness: the amended theorem applied to a concrete insufficient-funds
run (part a) — the status update to FAILED is issued there. -/
theorem claim_C4_witness :
    (modernPaymentV1Workflow
        ⟨[⟨"1", "ACC1", "CUST1", 400, "USD", "ACTIVE", "CHECKING",
            "2024-01-01"⟩], [], none, none, none, "PAY_1", none, none, none,
          none, none, fun _ => true, 0⟩
        ⟨"ACC1", "ACC2", 9000, "USD", "rent"⟩).1.success = false ∧
    Effect.statusUpdate "PAY_1" "FAILED"
        (some (insufficientFundsReason 400 9000)) ∈
      (modernPaymentV1Workflow
        ⟨[⟨"1", "ACC1", "CUST1", 400, "USD", "ACTIVE", "CHECKING",
            "2024-01-01"⟩], [], none, none, none, "PAY_1", none, none, none,
          none, none, fun _ => true, 0⟩
        ⟨"ACC1", "ACC2", 9000, "USD", "rent"⟩).2 := by
  have h := claim_C4.1
    ⟨[⟨"1", "ACC1", "CUST1", 400, "USD", "ACTIVE", "CHECKING", "2024-01-01"⟩],
      [], none, none, none, "PAY_1", none, none, none, none, none,
      fun _ => true, 0⟩
    ⟨"ACC1", "ACC2", 9000, "USD", "rent"⟩
    ⟨false, some ⟨"1", "ACC1", "CUST1", 400, "USD", "ACTIVE", "CHECKING",
      "2024-01-01"⟩, insufficientFundsReason 400 9000⟩
    rfl rfl rfl rfl
  exact ⟨h.1, h.2.2.2.2⟩

/-! ### Helper lemmas: the two v2 definitions agree on the core output -/

theorem core_complete (env : Env) (w w2 : String) (st st2 : St)
    (steps : List String) (pid : String) (fcr : FraudSummary) :
    coreOut (v2RunComplete env w st steps pid) =
      coreOut (pmRunComplete env w2 st2 steps pid fcr) := by
  rcases hu : env.updateFail with _ | e <;>
    simp [v2RunComplete, pmRunComplete, updatePaymentStatus, hu, v2Catch,
      pmCatch, v2Summary, pmSummary, coreOut, logAuditEvent, pushAudit]

theorem core_credit (env : Env) (input : PaymentInput) (w w2 : String)
    (st st2 : St) (steps : List String) (pid : String) (fcr : FraudSummary)
    (accounts : List Account) :
    coreOut (v2RunCredit env input w st steps pid accounts) =
      coreOut (pmRunCredit env input w2 st2 steps pid fcr accounts) := by
  simp only [v2RunCredit, pmRunCredit]
  rcases hcr : creditAccount env accounts input.toAccount input.amount with er | cr
  · simp [v2Catch, pmCatch, v2Summary, pmSummary, coreOut]
  · rcases hs : cr.1.success
    · rcases hu : env.updateFail with _ | e <;>
        simp [hs, updatePaymentStatus, hu, v2Catch, pmCatch, v2Summary,
          pmSummary, coreOut]
    · simp only [hs, Bool.not_true, Bool.false_eq_true, if_false]
      exact core_complete env w w2 _ _ _ pid fcr

theorem core_debit (env : Env) (input : PaymentInput) (w w2 : String)
    (st st2 : St) (steps : List String) (pid : String) (fcr : FraudSummary) :
    coreOut (v2RunDebit env input w st steps pid) =
      coreOut (pmRunDebit env input w2 st2 steps pid fcr) := by
  simp only [v2RunDebit, pmRunDebit]
  rcases hd : debitAccount env env.accounts input.fromAccount input.amount with er | dr
  · simp [v2Catch, pmCatch, v2Summary, pmSummary, coreOut]
  · rcases hs : dr.1.success
    · rcases hu : env.updateFail with _ | e <;>
        simp [hs, updatePaymentStatus, hu, v2Catch, pmCatch, v2Summary,
          pmSummary, coreOut]
    · simp only [hs, Bool.not_true, Bool.false_eq_true, if_false]
      exact core_credit env input w w2 _ _ _ pid fcr dr.2

theorem core_fraud (env : Env) (input : PaymentInput) (w w2 : String)
    (st st2 : St) (steps : List String) (pid : String) :
    coreOut (v2RunFraud env input w st steps pid) =
      coreOut (pmRunFraud env input w2 st2 steps pid) := by
  simp only [v2RunFraud, pmRunFraud]
  rcases hf : performFraudCheck env input.fromAccount input.amount with er | fr
  · simp [v2Catch, pmCatch, v2Summary, pmSummary, coreOut]
  · rcases hb : fr.isBlocked
    · simp only [hb, Bool.false_eq_true, if_false]
      exact core_debit env input w w2 _ _ _ pid _
    · rcases hu : env.updateFail with _ | e <;>
        simp [hb, updatePaymentStatus, hu, v2Catch, pmCatch, v2Summary,
          pmSummary, coreOut]

theorem core_validate (env : Env) (input : PaymentInput) (w w2 : String)
    (st st2 : St) (steps : List String) (pid : String) :
    coreOut (v2RunValidate env input w st steps pid) =
      coreOut (pmRunValidate env input w2 st2 steps pid) := by
  simp only [v2RunValidate, pmRunValidate]
  rcases hv : validateAccount env input.fromAccount input.amount with er | v
  · simp [v2Catch, pmCatch, v2Summary, pmSummary, coreOut]
  · rcases hvb : v.isValid
    · rcases hu : env.updateFail with _ | e <;>
        simp [hvb, updatePaymentStatus, hu, v2Catch, pmCatch, v2Summary,
          pmSummary, coreOut]
    · simp only [hvb, Bool.not_true, Bool.false_eq_true, if_false]
      exact core_fraud env input w w2 _ _ _ pid

/-! ### Helper lemmas: summary shapes of the two v2 definitions -/

theorem v2RunComplete_shape (env : Env) (w : String) (st : St)
    (steps : List String) (pid : String) :
    ∃ s, (v2RunComplete env w st steps pid).1.executionSummary = v2Summary s := by
  rcases hu : env.updateFail with _ | e <;>
    simp only [v2RunComplete, updatePaymentStatus, hu, v2Catch] <;>
    exact ⟨_, rfl⟩

theorem v2RunCredit_shape (env : Env) (input : PaymentInput) (w : String)
    (st : St) (steps : List String) (pid : String) (accounts : List Account) :
    ∃ s, (v2RunCredit env input w st steps pid accounts).1.executionSummary =
      v2Summary s := by
  simp only [v2RunCredit]
  rcases hcr : creditAccount env accounts input.toAccount input.amount with er | cr
  · exact ⟨_, rfl⟩
  · rcases hs : cr.1.success
    · rcases hu : env.updateFail with _ | e <;>
        simp only [hs, Bool.not_false, if_true, updatePaymentStatus, hu,
          v2Catch] <;> exact ⟨_, rfl⟩
    · simp only [hs, Bool.not_true, Bool.false_eq_true, if_false]
      exact v2RunComplete_shape env w _ _ pid

theorem v2RunDebit_shape (env : Env) (input : PaymentInput) (w : String)
    (st : St) (steps : List String) (pid : String) :
    ∃ s, (v2RunDebit env input w st steps pid).1.executionSummary =
      v2Summary s := by
  simp only [v2RunDebit]
  rcases hd : debitAccount env env.accounts input.fromAccount input.amount with er | dr
  · exact ⟨_, rfl⟩
  · rcases hs : dr.1.success
    · rcases hu : env.updateFail with _ | e <;>
        simp only [hs, Bool.not_false, if_true, updatePaymentStatus, hu,
          v2Catch] <;> exact ⟨_, rfl⟩
    · simp only [hs, Bool.not_true, Bool.false_eq_true, if_false]
      exact v2RunCredit_shape env input w _ _ pid dr.2

theorem v2RunFraud_shape (env : Env) (input : PaymentInput) (w : String)
    (st : St) (steps : List String) (pid : String) :
    ∃ s, (v2RunFraud env input w st steps pid).1.executionSummary =
      v2Summary s := by
  simp only [v2RunFraud]
  rcases hf : performFraudCheck env input.fromAccount input.amount with er | fr
  · exact ⟨_, rfl⟩
  · rcases hb : fr.isBlocked
    · simp only [hb, Bool.false_eq_true, if_false]
      exact v2RunDebit_shape env input w _ _ pid
    · rcases hu : env.updateFail with _ | e <;>
        simp only [hb, if_true, updatePaymentStatus, hu, v2Catch] <;>
        exact ⟨_, rfl⟩

theorem v2RunValidate_shape (env : Env) (input : PaymentInput) (w : String)
    (st : St) (steps : List String) (pid : String) :
    ∃ s, (v2RunValidate env input w st steps pid).1.executionSummary =
      v2Summary s := by
  simp only [v2RunValidate]
  rcases hv : validateAccount env input.fromAccount input.amount with er | v
  · exact ⟨_, rfl⟩
  · rcases hvb : v.isValid
    · rcases hu : env.updateFail with _ | e <;>
        simp only [hvb, Bool.not_false, if_true, updatePaymentStatus, hu,
          v2Catch] <;> exact ⟨_, rfl⟩
    · simp only [hvb, Bool.not_true, Bool.false_eq_true, if_false]
      exact v2RunFraud_shape env input w _ _ pid

theorem v2_summary_shape (env : Env) (input : PaymentInput) :
    ∃ s, (modernPaymentV2Workflow env input).1.executionSummary =
      v2Summary s := by
  simp only [modernPaymentV2Workflow]
  rcases hc : createPaymentRequest env input.fromAccount input.toAccount
      input.amount input.currency ("modern-v2-" ++ toString env.now)
      (input.description ++ " (v2 - With Fraud Check)") with er | pid
  · exact ⟨_, rfl⟩
  · exact v2RunValidate_shape env input _ _ _ pid

theorem pmRunComplete_shape (env : Env) (w : String) (st : St)
    (steps : List String) (pid : String) (fcr : FraudSummary) :
    ∃ s f, (pmRunComplete env w st steps pid fcr).1.executionSummary =
      pmSummary s f := by
  rcases hu : env.updateFail with _ | e <;>
    simp only [pmRunComplete, updatePaymentStatus, hu, pmCatch] <;>
    exact ⟨_, _, rfl⟩

theorem pmRunCredit_shape (env : Env) (input : PaymentInput) (w : String)
    (st : St) (steps : List String) (pid : String) (fcr : FraudSummary)
    (accounts : List Account) :
    ∃ s f, (pmRunCredit env input w st steps pid fcr accounts).1.executionSummary =
      pmSummary s f := by
  simp only [pmRunCredit]
  rcases hcr : creditAccount env accounts input.toAccount input.amount with er | cr
  · exact ⟨_, _, rfl⟩
  · rcases hs : cr.1.success
    · rcases hu : env.updateFail with _ | e <;>
        simp only [hs, Bool.not_false, if_true, updatePaymentStatus, hu,
          pmCatch] <;> exact ⟨_, _, rfl⟩
    · simp only [hs, Bool.not_true, Bool.false_eq_true, if_false]
      exact pmRunComplete_shape env w _ _ pid fcr

theorem pmRunDebit_shape (env : Env) (input : PaymentInput) (w : String)
    (st : St) (steps : List String) (pid : String) (fcr : FraudSummary) :
    ∃ s f, (pmRunDebit env input w st steps pid fcr).1.executionSummary =
      pmSummary s f := by
  simp only [pmRunDebit]
  rcases hd : debitAccount env env.accounts input.fromAccount input.amount with er | dr
  · exact ⟨_, _, rfl⟩
  · rcases hs : dr.1.success
    · rcases hu : env.updateFail with _ | e <;>
        simp only [hs, Bool.not_false, if_true, updatePaymentStatus, hu,
          pmCatch] <;> exact ⟨_, _, rfl⟩
    · simp only [hs, Bool.not_true, Bool.false_eq_true, if_false]
      exact pmRunCredit_shape env input w _ _ pid fcr dr.2

theorem pmRunFraud_shape (env : Env) (input : PaymentInput) (w : String)
    (st : St) (steps : List String) (pid : String) :
    ∃ s f, (pmRunFraud env input w st steps pid).1.executionSummary =
      pmSummary s f := by
  simp only [pmRunFraud]
  rcases hf : performFraudCheck env input.fromAccount input.amount with er | fr
  · exact ⟨_, _, rfl⟩
  · rcases hb : fr.isBlocked
    · simp only [hb, Bool.false_eq_true, if_false]
      exact pmRunDebit_shape env input w _ _ pid _
    · rcases hu : env.updateFail with _ | e <;>
        simp only [hb, if_true, updatePaymentStatus, hu, pmCatch] <;>
        exact ⟨_, _, rfl⟩

theorem pmRunValidate_shape (env : Env) (input : PaymentInput) (w : String)
    (st : St) (steps : List String) (pid : String) :
    ∃ s f, (pmRunValidate env input w st steps pid).1.executionSummary =
      pmSummary s f := by
  simp only [pmRunValidate]
  rcases hv : validateAccount env input.fromAccount input.amount with er | v
  · exact ⟨_, _, rfl⟩
  · rcases hvb : v.isValid
    · rcases hu : env.updateFail with _ | e <;>
        simp only [hvb, Bool.not_false, if_true, updatePaymentStatus, hu,
          pmCatch] <;> exact ⟨_, _, rfl⟩
    · simp only [hvb, Bool.not_true, Bool.false_eq_true, if_false]
      exact pmRunFraud_shape env input w _ _ pid

theorem pm_summary_shape (env : Env) (input : PaymentInput) :
    ∃ s f, (modernPaymentV2WorkflowPM env input).1.executionSummary =
      pmSummary s f := by
  simp only [modernPaymentV2WorkflowPM]
  rcases hc : createPaymentRequest env input.fromAccount input.toAccount
      input.amount input.currency ("modern-v2-" ++ toString env.now)
      (input.description ++ " (Modern v2 - PM Configured with Fraud Check)")
      with er | pid
  · exact ⟨_, _, rfl⟩
  · exact pmRunValidate_shape env input _ _ _ pid

/-- C10: the two `modernPaymentV2Workflow` definitions are behaviorally
equivalent on the core result: for every environment and input they return
the same success flag, paymentId, error and stepsExecuted (and version); they
differ only in the executionSummary, whose architecture string is the
respective constant and where only the second definition carries the
optional `fraudCheckResult` field. -/
theorem claim_C10 (env : Env) (input : PaymentInput) :
    coreOut (modernPaymentV2Workflow env input) =
      coreOut (modernPaymentV2WorkflowPM env input) ∧
    (modernPaymentV2Workflow env input).1.executionSummary.architecture =
      "Temporal Orchestrated + Fraud Check" ∧
    (modernPaymentV2Workflow env input).1.executionSummary.fraudCheckResult =
      none ∧
    (modernPaymentV2WorkflowPM env input).1.executionSummary.architecture =
      "Temporal Orchestrated + PM Configured" := by
  refine ⟨?_, ?_, ?_, ?_⟩
  · simp only [modernPaymentV2Workflow, modernPaymentV2WorkflowPM]
    rcases hc : env.createFail with _ | er
    · simp only [createPaymentRequest, hc]
      exact core_validate env input _ _ _ _ _ env.createdPaymentId
    · simp [createPaymentRequest, hc, v2Catch, pmCatch, v2Summary, pmSummary,
        coreOut]
  · rcases v2_summary_shape env input with ⟨s, hs⟩
    rw [hs]
    rfl
  · rcases v2_summary_shape env input with ⟨s, hs⟩
    rw [hs]
    rfl
  · rcases pm_summary_shape env input with ⟨s, f, hs⟩
    rw [hs]
    rfl
